import Mathlib

/-!
# acweb: the instance supervisor (`instance/mgn.go`)

A shallow embedding of `StartInstance`, `StopInstance`, `observeProcess`,
`runScript` and `GetAllInstances`.  The package-level slice `instances` is
passed explicitly; every call into the operating system, the Go standard
library or another package is answered by an explicit environment value, and
every such call is recorded, in program order, in a list of `Effect`s.
-/

namespace Acweb

/-! ## Data model -/

/-- The error value `util.OpError{Code, Msg}`; a Go `nil` error is `none`. -/
structure OpError where
  Code : Int
  Msg : String
deriving DecidableEq, Repr

/-- An open `*os.File`, identified by the path it was created with. -/
structure File where
  Name : String
deriving DecidableEq, Repr

/-- The `*os.Process` of a started command: the process id, and the identity
of the Go object behind the pointer.  Every `cmd.Start()` makes a new object,
so two started commands have different `Process`es even when the operating
system gives both the same id. -/
structure Process where
  Pid : Int
  Handle : Nat
deriving DecidableEq, Repr

/-- A started `*exec.Cmd`: the fields `StartInstance` sets, and `cmd.Process`. -/
structure Cmd where
  Path : String
  Args : List String
  Dir : String
  Stdout : File
  Stderr : File
  Process : Process
deriving DecidableEq, Repr

/-- The struct `Instance`, built positionally in `StartInstance` as
`Instance{cmd.Process.Pid, instanceName, config.Id, cmd, logfile}`. -/
structure Instance where
  PID : Int
  Name : String
  Configuration : Int
  Cmd : Cmd
  File : File
deriving DecidableEq, Repr

/-- Modelled from the spec: the type `model.Configuration`, whose declaration
is missing; the supervisor only reads its `Id`, the rest is an uninterpreted
payload handed on to `Join` and `writeConfig`. -/
structure Configuration where
  Id : Int
  Payload : List String
deriving DecidableEq, Repr

/-- Modelled from the spec: the type of `settings.GetSettings()`, whose
declaration is missing; it supplies "a folder and executable name" of the
supervised server binary. -/
structure Settings where
  Folder : String
  Executable : String
deriving DecidableEq, Repr

/-- A broken-down wall-clock time, as `time.Now()` hands it to `Format`. -/
structure Time where
  Year : Nat
  Month : Nat
  Day : Nat
  Hour : Nat
  Minute : Nat
  Second : Nat
deriving DecidableEq, Repr

/-- The logrus levels used by the supervisor. -/
inductive Level where
  | debug
  | info
  | error
deriving DecidableEq, Repr

/-- One externally visible action of the supervisor, with its arguments and,
where the call can fail, whether it succeeded. -/
inductive Effect where
  | log (level : Level) (msg : String)
  | mkdirAll (path : String) (ok : Bool)
  | getConfigurationById (id : Int) (ok : Bool)
  | join (config : Configuration) (ok : Bool)
  | getSettings
  | writeConfig (config : Configuration) (ok : Bool)
  | create (path : String) (ok : Bool)
  | scriptStart (scriptPath : String) (arg : String) (dir : String) (logfile : File) (ok : Bool)
  | cmdStart (path : String) (args : List String) (dir : String) (logfile : File) (ok : Bool)
  | lock
  | unlock
  | readInstances
  | writeInstances
  | goObserveProcess (cmd : Cmd)
  | wait (cmd : Cmd)
  | kill (p : Process) (ok : Bool)
  | close (f : File) (ok : Bool)
deriving DecidableEq, Repr

/-- Everything one `StartInstance` call asks of its surroundings.  A `Bool`
answer is `true` when the Go call returns a `nil` error; an `Option` answer is
`none` when it returns an error.  `cmdStart` answers `cmd.Start()` with the
process id and `newProcess` is the identity of the `os.Process` object that
call makes.  `pathJoin` and `pathDir` stand for
`filepath.Join` and `filepath.Dir`, whose results depend on the operating
system; `filepath.Join` below is the one of Unix. -/
structure World where
  getenv : String → String
  pathJoin : String → String → String
  pathDir : String → String
  mkdirAll : String → Bool
  getConfigurationById : Int → Option Configuration
  join : Configuration → Option Configuration
  getSettings : Settings
  writeConfig : Configuration → Option (String × String)
  now : Time
  create : String → Bool
  scriptBeforeStarts : Bool
  cmdStart : String → List String → String → File → Option Int
  newProcess : Nat
  scriptAfterStarts : Bool

/-! ## Helpers of the standard library and of other packages -/

/-- The white space of Go (`unicode.IsSpace`). -/
def isSpace (c : Char) : Bool :=
  let n := c.toNat
  n = 9 || n = 10 || n = 11 || n = 12 || n = 13 || n = 32 || n = 133 || n = 160
    || n = 5760 || (8192 ≤ n && n ≤ 8202) || n = 8232 || n = 8233 || n = 8239
    || n = 8287 || n = 12288

/-- Modelled from the spec: the function `util.Trim`, whose definition is
missing; "`name` and both script paths are trimmed of surrounding whitespace
before use". -/
def Trim (s : String) : String :=
  String.mk ((s.data.dropWhile isSpace).reverse.dropWhile isSpace).reverse

/-- The path separator of Unix, `filepath.Separator`. -/
def Separator : Char :=
  Char.ofNat 47

/-- The elements of a path: the pieces between its separators, empty ones
included. -/
def splitPath : List Char → List (List Char)
  | [] => [[]]
  | c :: cs =>
    if c = Separator then [] :: splitPath cs
    else
      match splitPath cs with
      | [] => [[c]]
      | e :: es => (c :: e) :: es

/-- The path element `.`. -/
def dot : List Char :=
  [Char.ofNat 46]

/-- The path element `..`. -/
def dotdot : List Char :=
  [Char.ofNat 46, Char.ofNat 46]

/-- One round of the loop of `filepath.Clean`, on the next path element; `out`
holds the elements written so far, the last one first.  Empty elements and `.`
are skipped; `..` takes back the last element written, unless there is none
or it is a `..` itself: then it is dropped in a rooted path and written in a
relative one; every other element is written. -/
def cleanStep (rooted : Bool) (out : List (List Char)) (elem : List Char) : List (List Char) :=
  if elem = [] then out
  else if elem = dot then out
  else if elem = dotdot then
    match out with
    | top :: below =>
      if top ≠ dotdot then below
      else if rooted then out
      else elem :: out
    | [] => if rooted then out else elem :: out
  else elem :: out

/-- Whether the path starts with a separator. -/
def filepath.rooted (path : String) : Bool :=
  decide (path.data.head? = some Separator)

/-- The elements `filepath.Clean` keeps of a path, in order. -/
def filepath.elems (path : String) : List (List Char) :=
  ((splitPath path.data).foldl (cleanStep (filepath.rooted path)) []).reverse

/-- The path with the given elements: the elements joined by separators,
after a leading separator when rooted; `.` for no element at all in a
relative path. -/
def filepath.render (rooted : Bool) (elems : List (List Char)) : String :=
  if rooted then String.mk (Separator :: List.intercalate [Separator] elems)
  else if elems = [] then "."
  else String.mk (List.intercalate [Separator] elems)

/-- The function `filepath.Clean` of the Go standard library, on Unix. -/
def filepath.Clean (path : String) : String :=
  if path = "" then "."
  else filepath.render (filepath.rooted path) (filepath.elems path)

/-- The function `filepath.Join` of the Go standard library, on Unix, for two
elements: the elements from the first non-empty one on, joined by a separator
and cleaned. -/
def filepath.Join (a b : String) : String :=
  if a ≠ "" then filepath.Clean (a ++ "/" ++ b)
  else if b ≠ "" then filepath.Clean b
  else ""

/-- The digits of `x`, padded with zeros on the left to at least `width`
characters (`appendInt` of package `time`). -/
def appendInt (x width : Nat) : String :=
  let digits := (Nat.repr x).data
  String.mk (List.replicate (width - digits.length) (Char.ofNat 48) ++ digits)

/-- The call `t.Format("20060102_150405")`: four-digit year, two-digit month
and day, an underscore, two-digit hour (24h), minute and second. -/
def Time.Format (t : Time) : String :=
  appendInt t.Year 4 ++ appendInt t.Month 2 ++ appendInt t.Day 2 ++ "_"
    ++ appendInt t.Hour 2 ++ appendInt t.Minute 2 ++ appendInt t.Second 2

/-- Modelled from the spec: the function `int64ToStr`, whose definition is
missing; it renders the configuration id in decimal, as in the log file name
`20240302_101530_42_race1.log` of configuration 42. -/
def int64ToStr (i : Int) : String :=
  match i with
  | Int.ofNat n => Nat.repr n
  | Int.negSucc n => "-" ++ Nat.repr (n + 1)

/-- The call `strconv.Itoa`. -/
def Itoa (i : Int) : String :=
  match i with
  | Int.ofNat n => Nat.repr n
  | Int.negSucc n => "-" ++ Nat.repr (n + 1)

/-! ## The supervisor -/

/-- What a call leaves behind: the returned error, the actions performed in
program order, and the package variable `instances` after the call. -/
structure Outcome where
  err : Option OpError
  effects : List Effect
  instances : List Instance
deriving DecidableEq, Repr

/-- The function `GetAllInstances`: `return instances`, with no lock taken. -/
def GetAllInstances (instances : List Instance) : Outcome :=
  ⟨none, [Effect.readInstances], instances⟩

/-- The function `runScript`: start the script with the process id as its only
argument, in the script's own directory, writing to the log file; log the
result and return nothing. -/
def runScript (pathDir : String → String) (starts : Bool) (scriptPath : String)
    (processId : Int) (logfile : File) : List Effect :=
  if starts = false then
    [Effect.scriptStart scriptPath (Itoa processId) (pathDir scriptPath) logfile false,
     Effect.log Level.error "Error starting script"]
  else
    [Effect.scriptStart scriptPath (Itoa processId) (pathDir scriptPath) logfile true,
     Effect.log Level.debug "Run script"]

/-- The name of the log file, `logName` in `StartInstance`. -/
def logName (now : Time) (configId : Int) (instanceName : String) : String :=
  now.Format ++ "_" ++ int64ToStr configId ++ "_" ++ instanceName ++ ".log"

/-- The function `StartInstance`. -/
def StartInstance (w : World) (instances : List Instance) (instanceName : String)
    (configuration : Int) (scriptBefore scriptAfter : String) : Outcome :=
  let instanceName := Trim instanceName
  let scriptBefore := Trim scriptBefore
  let scriptAfter := Trim scriptAfter
  if instanceName = "" then
    ⟨some ⟨1, "Instance name must be set"⟩, [], instances⟩
  else
    -- create log dir
    let logdir := w.getenv "ACWEB_INSTANCE_LOGDIR"
    if w.mkdirAll logdir = false then
      ⟨some ⟨5, "Error creating server log folder"⟩,
        [Effect.mkdirAll logdir false,
         Effect.log Level.error "Error creating server log folder"], instances⟩
    else
      let e1 := [Effect.mkdirAll logdir true]
      -- read config
      match w.getConfigurationById configuration with
      | none =>
        ⟨some ⟨2, "Error reading configuration"⟩,
          e1 ++ [Effect.getConfigurationById configuration false,
            Effect.log Level.error "Error reading configuration to start instance"],
          instances⟩
      | some loaded =>
        let e2 := e1 ++ [Effect.getConfigurationById configuration true]
        match w.join loaded with
        | none =>
          ⟨some ⟨2, "Error reading configuration"⟩,
            e2 ++ [Effect.join loaded false,
              Effect.log Level.error
                "Error joining entities to configuration to start instance"],
            instances⟩
        | some config =>
          -- read settings
          let s := w.getSettings
          let e3 := e2 ++ [Effect.join loaded true, Effect.getSettings]
          -- write config
          match w.writeConfig config with
          | none =>
            ⟨some ⟨3, "Error writing configuration"⟩,
              e3 ++ [Effect.writeConfig config false], instances⟩
          | some (iniServerCfg, iniEntryList) =>
            let e4 := e3 ++ [Effect.writeConfig config true]
            -- create log file
            let path := w.pathJoin logdir (logName w.now config.Id instanceName)
            if w.create path = false then
              ⟨some ⟨6, "Error creating log file"⟩,
                e4 ++ [Effect.create path false,
                  Effect.log Level.error "Error creating log file"], instances⟩
            else
              let logfile : File := ⟨path⟩
              let e5 := e4 ++ [Effect.create path true]
              -- run script before server start (without process ID)
              let e6 := e5 ++
                (if scriptBefore = "" then []
                 else runScript w.pathDir w.scriptBeforeStarts scriptBefore 0 logfile)
              -- force server_cfg and entry_list ini paths
              let exe := w.pathJoin s.Folder s.Executable
              let args := [exe, "-c", iniServerCfg, "-e", iniEntryList]
              match w.cmdStart exe args s.Folder logfile with
              | none =>
                ⟨some ⟨4, "Error starting instance"⟩,
                  e6 ++ [Effect.cmdStart exe args s.Folder logfile false,
                    Effect.log Level.error "Error starting instance"], instances⟩
              | some pid =>
                let cmd : Cmd :=
                  ⟨exe, args, s.Folder, logfile, logfile, ⟨pid, w.newProcess⟩⟩
                let e7 := e6 ++ [Effect.cmdStart exe args s.Folder logfile true]
                -- run script after server start (with process ID)
                let e8 := e7 ++
                  (if scriptAfter = "" then []
                   else runScript w.pathDir w.scriptAfterStarts scriptAfter
                     cmd.Process.Pid logfile)
                -- add instance to list of running instances
                let inst : Instance := ⟨cmd.Process.Pid, instanceName, config.Id, cmd, logfile⟩
                ⟨none,
                  e8 ++ [Effect.log Level.debug "Adding new instance", Effect.lock,
                    Effect.readInstances, Effect.writeInstances, Effect.unlock,
                    Effect.goObserveProcess cmd],
                  instances ++ [inst]⟩

/-- The function `stopProcess`: "just kill it". -/
def stopProcess (kill : Process → Bool) (inst : Instance) : Option OpError × List Effect :=
  if kill inst.Cmd.Process = false then
    (some ⟨1, "Error stopping instance"⟩,
      [Effect.kill inst.Cmd.Process false,
       Effect.log Level.error "Error when stopping instance"])
  else
    (none, [Effect.kill inst.Cmd.Process true])

/-- The loop of `StopInstance` over the registered instances that are still to
be visited. -/
def stopLoop (kill : Process → Bool) (pid : Int) : List Instance → Option OpError × List Effect
  | [] => (some ⟨2, "Instance not found"⟩, [])
  | inst :: rest =>
    if inst.PID = pid then
      -- instance is removed from instances by observeProcess
      stopProcess kill inst
    else
      stopLoop kill pid rest

/-- The function `StopInstance`; `kill` answers `Process.Kill()`. -/
def StopInstance (kill : Process → Bool) (instances : List Instance) (pid : Int) : Outcome :=
  let r := stopLoop kill pid instances
  ⟨r.1, [Effect.lock, Effect.readInstances] ++ r.2 ++ [Effect.unlock], instances⟩

/-- How `cmd.Wait()` ended. -/
inductive WaitResult where
  | exited
  | exitError
  | otherError
deriving DecidableEq, Repr

/-- The loop of `observeProcess` over the instances still to be visited: the
first instance with the process id has its log file closed and is cut out of
`instances`, and the function returns. -/
def removeLoop (closes : File → Bool) (pid : Int) :
    List Instance → List Effect × List Instance
  | [] => ([], [])
  | inst :: rest =>
    if inst.PID = pid then
      ([Effect.close inst.File (closes inst.File)]
        ++ (if closes inst.File = false then [Effect.log Level.error "Error closing log file"]
            else [])
        ++ [Effect.readInstances, Effect.writeInstances,
            Effect.log Level.info "Instance removed"],
       rest)
    else
      let r := removeLoop closes pid rest
      (r.1, inst :: r.2)

/-- The function `observeProcess`, from the return of `cmd.Wait()` on; `closes`
answers `File.Close()`. -/
def observeProcess (waited : WaitResult) (closes : File → Bool) (instances : List Instance)
    (cmd : Cmd) : Outcome :=
  let e1 := [Effect.wait cmd] ++
    (if waited = WaitResult.exited then []
     else [Effect.log Level.error "Error when instance stopped"])
  -- remove process
  let r := removeLoop closes cmd.Process.Pid instances
  ⟨none, e1 ++ [Effect.lock, Effect.readInstances] ++ r.1 ++ [Effect.unlock], r.2⟩

/-! ## The registry as a state machine -/

/-- The number of registered instances that carry the process id. -/
def countPID (pid : Int) (instances : List Instance) : Nat :=
  instances.countP (fun i => decide (i.PID = pid))

/-- The files closed by a run, in program order, one entry per `Close()`. -/
def closedFiles (effects : List Effect) : List File :=
  effects.filterMap (fun e => match e with
    | Effect.close f _ => some f
    | _ => none)

/-- The paths of the files a run creates, in program order. -/
def createdFiles (effects : List Effect) : List String :=
  effects.filterMap (fun e => match e with
    | Effect.create path true => some path
    | _ => none)

/-- One step of the registry: a call of `StartInstance` or `StopInstance`, or
one exit observer reaching the end of `observeProcess`, each under arbitrary
answers of the surroundings. -/
inductive Step : List Instance → List Instance → Prop where
  | start (w : World) (instances : List Instance) (instanceName : String)
      (configuration : Int) (scriptBefore scriptAfter : String) :
      Step instances
        (StartInstance w instances instanceName configuration scriptBefore scriptAfter).instances
  | stop (kill : Process → Bool) (instances : List Instance) (pid : Int) :
      Step instances (StopInstance kill instances pid).instances
  | observe (waited : WaitResult) (closes : File → Bool) (instances : List Instance)
      (cmd : Cmd) :
      Step instances (observeProcess waited closes instances cmd).instances

/-- The registries that some sequence of steps produces from the empty
registry the package starts with (`make([]Instance, 0)`). -/
inductive Reachable : List Instance → Prop where
  | init : Reachable []
  | step (a b : List Instance) : Reachable a → Step a b → Reachable b

/-- The surroundings hand out no process id that a registered instance still
carries. -/
def FreshPids (w : World) (instances : List Instance) : Prop :=
  ∀ (path : String) (args : List String) (dir : String) (logfile : File) (pid : Int),
    w.cmdStart path args dir logfile = some pid → ∀ i ∈ instances, i.PID ≠ pid

/-- The steps of `Step` in which every `StartInstance` runs in surroundings
that hand out fresh process ids only. -/
inductive FreshStep : List Instance → List Instance → Prop where
  | start (w : World) (instances : List Instance) (instanceName : String)
      (configuration : Int) (scriptBefore scriptAfter : String) :
      FreshPids w instances →
      FreshStep instances
        (StartInstance w instances instanceName configuration scriptBefore scriptAfter).instances
  | stop (kill : Process → Bool) (instances : List Instance) (pid : Int) :
      FreshStep instances (StopInstance kill instances pid).instances
  | observe (waited : WaitResult) (closes : File → Bool) (instances : List Instance)
      (cmd : Cmd) :
      FreshStep instances (observeProcess waited closes instances cmd).instances

/-- The registries reachable from the empty one by `FreshStep`s. -/
inductive FreshReachable : List Instance → Prop where
  | init : FreshReachable []
  | step (a b : List Instance) : FreshReachable a → FreshStep a b → FreshReachable b

/-- The registry together with the process ids the operating system has in
use: the ids of the started server processes that nobody has waited for yet. -/
structure System where
  instances : List Instance
  inUse : List Int

/-- One step of the supervisor next to an operating system that never hands
out a process id in use.  The exit observer takes two steps: `waited`, when its
`cmd.Wait()` returns and the id of the process is free again, and `removed`,
when it has taken the lock and run the rest of `observeProcess`. -/
inductive OsStep : System → System → Prop where
  | start (w : World) (s : System) (instanceName : String) (configuration : Int)
      (scriptBefore scriptAfter : String) :
      (∀ (path : String) (args : List String) (dir : String) (logfile : File) (pid : Int),
        w.cmdStart path args dir logfile = some pid → pid ∉ s.inUse) →
      OsStep s
        ⟨(StartInstance w s.instances instanceName configuration scriptBefore
            scriptAfter).instances,
         ((StartInstance w s.instances instanceName configuration scriptBefore
            scriptAfter).instances.drop s.instances.length).map Instance.PID ++ s.inUse⟩
  | stop (kill : Process → Bool) (s : System) (pid : Int) :
      OsStep s ⟨(StopInstance kill s.instances pid).instances, s.inUse⟩
  | waited (s : System) (pid : Int) :
      pid ∈ s.inUse → OsStep s ⟨s.instances, s.inUse.erase pid⟩
  | removed (waited : WaitResult) (closes : File → Bool) (s : System) (cmd : Cmd) :
      OsStep s ⟨(observeProcess waited closes s.instances cmd).instances, s.inUse⟩

/-- The systems reachable by `OsStep`s from the empty registry with no server
process running. -/
inductive OsReachable : System → Prop where
  | init : OsReachable ⟨[], []⟩
  | step (a b : System) : OsReachable a → OsStep a b → OsReachable b

/-- Whether every read and every write of `instances` in a run happens between
`m.Lock()` and `m.Unlock()`; `held` says whether the lock is held at the
start. -/
def accessesUnderLock : Bool → List Effect → Bool
  | _, [] => true
  | _, Effect.lock :: es => accessesUnderLock true es
  | _, Effect.unlock :: es => accessesUnderLock false es
  | held, Effect.readInstances :: es => held && accessesUnderLock held es
  | held, Effect.writeInstances :: es => held && accessesUnderLock held es
  | held, _ :: es => accessesUnderLock held es

/-! ## Names for the values `StartInstance` computes on its way -/

/-- The log directory, `os.Getenv("ACWEB_INSTANCE_LOGDIR")`. -/
abbrev World.logdir (w : World) : String :=
  w.getenv "ACWEB_INSTANCE_LOGDIR"

/-- The path handed to `os.Create`: `filepath.Join` of the log directory and
`logName`. -/
abbrev World.logPath (w : World) (config : Configuration) (instanceName : String) : String :=
  w.pathJoin w.logdir (logName w.now config.Id instanceName)

/-- The server executable, `filepath.Join(s.Folder, s.Executable)`. -/
abbrev World.exe (w : World) : String :=
  w.pathJoin w.getSettings.Folder w.getSettings.Executable

/-- The argument vector of the server command. -/
abbrev World.args (w : World) (iniServerCfg iniEntryList : String) : List String :=
  [w.exe, "-c", iniServerCfg, "-e", iniEntryList]

/-- The started command `cmd` of `StartInstance`. -/
abbrev World.cmd (w : World) (iniServerCfg iniEntryList : String) (logfile : File)
    (pid : Int) : Cmd :=
  ⟨w.exe, w.args iniServerCfg iniEntryList, w.getSettings.Folder, logfile, logfile,
    ⟨pid, w.newProcess⟩⟩

/-- The actions of the pre-start hook: none when the trimmed path is empty. -/
abbrev World.before (w : World) (scriptBefore : String) (logfile : File) : List Effect :=
  if Trim scriptBefore = "" then []
  else runScript w.pathDir w.scriptBeforeStarts (Trim scriptBefore) 0 logfile

/-- The actions of the post-start hook: none when the trimmed path is empty. -/
abbrev World.after (w : World) (scriptAfter : String) (logfile : File) (pid : Int) :
    List Effect :=
  if Trim scriptAfter = "" then []
  else runScript w.pathDir w.scriptAfterStarts (Trim scriptAfter) pid logfile

/-! ## Concrete surroundings and registries -/

/-- Surroundings in which every stage succeeds for configuration 42, at
2024-03-02 10:15:30, and the started process is the object `handle` with the
given id. -/
def worldWith (pid : Int) (handle : Nat) : World where
  getenv := fun _ => "/var/log/acweb"
  pathJoin := filepath.Join
  pathDir := fun _ => "/opt/hooks"
  mkdirAll := fun _ => true
  getConfigurationById := fun id => if id = 42 then some ⟨42, []⟩ else none
  join := fun c => some c
  getSettings := ⟨"/opt/ac", "acServer"⟩
  writeConfig := fun _ => some ("server_cfg.ini", "entry_list.ini")
  now := ⟨2024, 3, 2, 10, 15, 30⟩
  create := fun _ => true
  scriptBeforeStarts := true
  cmdStart := fun _ _ _ _ => some pid
  newProcess := handle
  scriptAfterStarts := true

/-- The surroundings `worldWith` in which the started process is the object 0
and gets the id 7. -/
def demoWorld : World :=
  worldWith 7 0

/-- The surroundings of a later start: the started process is another object,
1, and the operating system gives it the id 7 again. -/
def laterWorld : World :=
  worldWith 7 1

/-- The registry after one start in `demoWorld` from the empty registry. -/
def startedOnce : List Instance :=
  (StartInstance demoWorld [] "race1" 42 "" "").instances

/-- The registry after a start in `demoWorld` and a start in `laterWorld`, with
no observer removal in between: the second process is given the id 7 as well. -/
def startedTwice : List Instance :=
  (StartInstance laterWorld startedOnce "race2" 42 "" "").instances

/-- The registry after a start in `demoWorld` and one in `worldWith 8 1`. -/
def startedApart : List Instance :=
  (StartInstance (worldWith 8 1) startedOnce "race2" 42 "" "").instances

/-- A registered instance with the given process id and name; its process is
the object numbered like the id. -/
def demoInstance (pid : Int) (name : String) : Instance :=
  ⟨pid, name, 42,
    ⟨"/opt/ac/acServer", ["/opt/ac/acServer", "-c", "server_cfg.ini", "-e", "entry_list.ini"],
      "/opt/ac", ⟨name ++ ".log"⟩, ⟨name ++ ".log"⟩, ⟨pid, pid.toNat⟩⟩,
    ⟨name ++ ".log"⟩⟩

set_option maxHeartbeats 1000000

/-! ## Lemmas -/

/-- A string of white space only is trimmed to the empty string. -/
theorem Trim_eq_empty_of_all_space (s : String) (h : ∀ c ∈ s.data, isSpace c = true) :
    Trim s = "" := by
  have h1 : s.data.dropWhile isSpace = [] := List.dropWhile_eq_nil_iff.mpr h
  simp [Trim, h1]

/-- The loop of `StopInstance` finds nothing when no instance carries the id. -/
theorem stopLoop_of_absent (kill : Process → Bool) (pid : Int) (instances : List Instance)
    (h : ∀ i ∈ instances, i.PID ≠ pid) :
    stopLoop kill pid instances = (some ⟨2, "Instance not found"⟩, []) := by
  induction instances with
  | nil => rfl
  | cons a rest ih =>
    have ha : a.PID ≠ pid := h a (List.mem_cons_self a rest)
    have hrest : ∀ i ∈ rest, i.PID ≠ pid := fun i hi => h i (List.mem_cons_of_mem a hi)
    simp [stopLoop, ha, ih hrest]

/-- The loop of `StopInstance` stops the first instance that carries the id. -/
theorem stopLoop_of_present (kill : Process → Bool) (pid : Int) (instances : List Instance)
    (h : ∃ i ∈ instances, i.PID = pid) :
    ∃ inst, instances.find? (fun i => decide (i.PID = pid)) = some inst ∧
      stopLoop kill pid instances = stopProcess kill inst := by
  induction instances with
  | nil => simp at h
  | cons a rest ih =>
    by_cases ha : a.PID = pid
    · exact ⟨a, by simp [List.find?, ha], by simp [stopLoop, ha]⟩
    · have hrest : ∃ i ∈ rest, i.PID = pid := by
        obtain ⟨i, hi, hp⟩ := h
        rcases List.mem_cons.mp hi with rfl | hi
        · exact absurd hp ha
        · exact ⟨i, hi, hp⟩
      obtain ⟨inst, hfind, hloop⟩ := ih hrest
      exact ⟨inst, by simp [List.find?, ha, hfind], by simp [stopLoop, ha, hloop]⟩

/-! ## Reachable registries -/

/-- After the first start the operating system has the id 7 in use. -/
theorem startedOnce_os : OsReachable ⟨startedOnce, [7]⟩ :=
  OsReachable.step ⟨[], []⟩ ⟨startedOnce, [7]⟩ OsReachable.init
    (OsStep.start demoWorld ⟨[], []⟩ "race1" 42 "" "" (by simp))

/-- After the observer of the first process has waited, the id 7 is free and
the instance is still registered. -/
theorem startedOnce_waited_os : OsReachable ⟨startedOnce, []⟩ :=
  OsReachable.step ⟨startedOnce, [7]⟩ ⟨startedOnce, []⟩ startedOnce_os
    (OsStep.waited ⟨startedOnce, [7]⟩ 7 (by simp))

/-- The second start may be given the id 7 again. -/
theorem startedTwice_os : OsReachable ⟨startedTwice, [7]⟩ :=
  OsReachable.step ⟨startedOnce, []⟩ ⟨startedTwice, [7]⟩ startedOnce_waited_os
    (OsStep.start laterWorld ⟨startedOnce, []⟩ "race2" 42 "" "" (by simp))

/-! ## StopInstance -/

/-- C2: for every registry and every process id that no registered Instance
carries, `StopInstance` returns `OpError{2, "Instance not found"}`, performs
nothing but taking the lock, reading the registry and releasing the lock (in
particular it sends no kill signal), and leaves the registry as it was. -/
theorem StopInstance_unknown_pid (kill : Process → Bool) (instances : List Instance)
    (pid : Int) (h : ∀ i ∈ instances, i.PID ≠ pid) :
    (StopInstance kill instances pid).err = some ⟨2, "Instance not found"⟩ ∧
    (StopInstance kill instances pid).effects
      = [Effect.lock, Effect.readInstances, Effect.unlock] ∧
    (∀ p ok, Effect.kill p ok ∉ (StopInstance kill instances pid).effects) ∧
    (StopInstance kill instances pid).instances = instances := by
  simp [StopInstance, stopLoop_of_absent kill pid instances h]

/-- With processes 7 and 8 registered, stopping process 9 is refused. -/
theorem StopInstance_unknown_pid_witness :
    (∀ i ∈ [demoInstance 7 "race1", demoInstance 8 "race2"], i.PID ≠ 9) ∧
    (StopInstance (fun _ => true) [demoInstance 7 "race1", demoInstance 8 "race2"] 9).err
      = some ⟨2, "Instance not found"⟩ :=
  ⟨by decide,
   (StopInstance_unknown_pid (fun _ => true) [demoInstance 7 "race1", demoInstance 8 "race2"] 9
      (by decide)).1⟩

/-- C6 (as amended): for every registry and every process id carried by a
registered Instance, `StopInstance` sends exactly one kill signal, to the
process of the first registered Instance with that id; it returns no error
when that kill succeeds and `OpError{1, "Error stopping instance"}` when it
fails; in both cases the registry is left as it was, so the Instance is still
registered. -/
theorem StopInstance_known_pid (kill : Process → Bool) (instances : List Instance)
    (pid : Int) (h : ∃ i ∈ instances, i.PID = pid) :
    ∃ inst, instances.find? (fun i => decide (i.PID = pid)) = some inst ∧
      inst ∈ instances ∧ inst.PID = pid ∧
      (StopInstance kill instances pid).instances = instances ∧
      inst ∈ (StopInstance kill instances pid).instances ∧
      (kill inst.Cmd.Process = true →
        (StopInstance kill instances pid).err = none ∧
        (StopInstance kill instances pid).effects
          = [Effect.lock, Effect.readInstances, Effect.kill inst.Cmd.Process true,
             Effect.unlock]) ∧
      (kill inst.Cmd.Process = false →
        (StopInstance kill instances pid).err = some ⟨1, "Error stopping instance"⟩ ∧
        (StopInstance kill instances pid).effects
          = [Effect.lock, Effect.readInstances, Effect.kill inst.Cmd.Process false,
             Effect.log Level.error "Error when stopping instance", Effect.unlock]) := by
  obtain ⟨inst, hfind, hloop⟩ := stopLoop_of_present kill pid instances h
  have hmem : inst ∈ instances := List.mem_of_find?_eq_some hfind
  have hpid : inst.PID = pid := by
    have := List.find?_some hfind
    simpa using this
  refine ⟨inst, hfind, hmem, hpid, rfl, hmem, ?_, ?_⟩
  · intro hk
    simp [StopInstance, hloop, stopProcess, hk]
  · intro hk
    simp [StopInstance, hloop, stopProcess, hk]

/-- With processes 7 and 8 registered, a failed kill of process 8 leaves both
registered. -/
theorem StopInstance_known_pid_witness :
    (∃ i ∈ [demoInstance 7 "race1", demoInstance 8 "race2"], i.PID = 8) ∧
    ∃ inst, [demoInstance 7 "race1", demoInstance 8 "race2"].find?
        (fun i => decide (i.PID = 8)) = some inst ∧
      inst ∈ [demoInstance 7 "race1", demoInstance 8 "race2"] ∧ inst.PID = 8 ∧
      (StopInstance (fun _ => false) [demoInstance 7 "race1", demoInstance 8 "race2"] 8).instances
        = [demoInstance 7 "race1", demoInstance 8 "race2"] :=
  ⟨by decide,
   (StopInstance_known_pid (fun _ => false) [demoInstance 7 "race1", demoInstance 8 "race2"] 8
      (by decide)).imp (fun _ hx => ⟨hx.1, hx.2.1, hx.2.2.1, hx.2.2.2.1⟩)⟩

/-- C6 (as stated) fails: in the reachable registry `startedTwice` the
Instances "race1" and "race2" both carry the process id 7 and have different
processes.  `StopInstance` for the id 7 signals the process of "race1" only:
the process of the registered Instance "race2" gets no kill signal, whether
the one kill succeeds or, as for a process that has exited already, fails
while a kill of the process of "race2" would succeed. -/
theorem StopInstance_spares_second_of_same_pid :
    OsReachable ⟨startedTwice, [7]⟩ ∧
    startedTwice.map (fun i => (i.PID, i.Name, i.Cmd.Process))
      = [(7, "race1", ⟨7, 0⟩), (7, "race2", ⟨7, 1⟩)] ∧
    (StopInstance (fun _ => true) startedTwice 7).err = none ∧
    (StopInstance (fun _ => true) startedTwice 7).effects
      = [Effect.lock, Effect.readInstances, Effect.kill ⟨7, 0⟩ true, Effect.unlock] ∧
    (StopInstance (fun p => decide (p.Handle = 1)) startedTwice 7).err
      = some ⟨1, "Error stopping instance"⟩ ∧
    (StopInstance (fun p => decide (p.Handle = 1)) startedTwice 7).effects
      = [Effect.lock, Effect.readInstances, Effect.kill ⟨7, 0⟩ false,
         Effect.log Level.error "Error when stopping instance", Effect.unlock] ∧
    ∃ i ∈ startedTwice, i.PID = 7 ∧ i.Name = "race2" ∧
      (∀ ok, Effect.kill i.Cmd.Process ok
        ∉ (StopInstance (fun _ => true) startedTwice 7).effects) ∧
      (∀ ok, Effect.kill i.Cmd.Process ok
        ∉ (StopInstance (fun p => decide (p.Handle = 1)) startedTwice 7).effects) := by
  exact ⟨startedTwice_os, by decide⟩

/-! ## StartInstance: validation -/

/-- C3: for every instance name that is empty or made of white space only,
and every registry, configuration id, pair of script paths and surroundings,
`StartInstance` returns `OpError{1, "Instance name must be set"}` having
performed no action at all (no directory, configuration, log file, script or
process is touched) and leaves the registry as it was. -/
theorem StartInstance_blank_name (w : World) (instances : List Instance)
    (instanceName : String) (configuration : Int) (scriptBefore scriptAfter : String)
    (h : ∀ c ∈ instanceName.data, isSpace c = true) :
    StartInstance w instances instanceName configuration scriptBefore scriptAfter
      = ⟨some ⟨1, "Instance name must be set"⟩, [], instances⟩ := by
  simp [StartInstance, Trim_eq_empty_of_all_space instanceName h]

/-- A name of two blanks is refused with nothing done. -/
theorem StartInstance_blank_name_witness :
    (∀ c ∈ "  ".data, isSpace c = true) ∧
    StartInstance demoWorld [demoInstance 7 "race1"] "  " 42 "before.sh" "after.sh"
      = ⟨some ⟨1, "Instance name must be set"⟩, [], [demoInstance 7 "race1"]⟩ :=
  ⟨by decide,
   StartInstance_blank_name demoWorld [demoInstance 7 "race1"] "  " 42 "before.sh" "after.sh"
     (by decide)⟩

/-! ## StartInstance: the stages -/

/-- The eight ways through `StartInstance`, each with the answers of the
surroundings that lead there and the full outcome. -/
theorem StartInstance_cases (w : World) (instances : List Instance) (instanceName : String)
    (configuration : Int) (scriptBefore scriptAfter : String) :
    (Trim instanceName = "" ∧
      StartInstance w instances instanceName configuration scriptBefore scriptAfter
        = ⟨some ⟨1, "Instance name must be set"⟩, [], instances⟩) ∨
    (Trim instanceName ≠ "" ∧ w.mkdirAll w.logdir = false ∧
      StartInstance w instances instanceName configuration scriptBefore scriptAfter
        = ⟨some ⟨5, "Error creating server log folder"⟩,
            [Effect.mkdirAll w.logdir false,
             Effect.log Level.error "Error creating server log folder"], instances⟩) ∨
    (Trim instanceName ≠ "" ∧ w.mkdirAll w.logdir = true ∧
      w.getConfigurationById configuration = none ∧
      StartInstance w instances instanceName configuration scriptBefore scriptAfter
        = ⟨some ⟨2, "Error reading configuration"⟩,
            [Effect.mkdirAll w.logdir true,
             Effect.getConfigurationById configuration false,
             Effect.log Level.error "Error reading configuration to start instance"],
            instances⟩) ∨
    (∃ loaded, Trim instanceName ≠ "" ∧ w.mkdirAll w.logdir = true ∧
      w.getConfigurationById configuration = some loaded ∧ w.join loaded = none ∧
      StartInstance w instances instanceName configuration scriptBefore scriptAfter
        = ⟨some ⟨2, "Error reading configuration"⟩,
            [Effect.mkdirAll w.logdir true,
             Effect.getConfigurationById configuration true,
             Effect.join loaded false,
             Effect.log Level.error
               "Error joining entities to configuration to start instance"],
            instances⟩) ∨
    (∃ loaded config, Trim instanceName ≠ "" ∧ w.mkdirAll w.logdir = true ∧
      w.getConfigurationById configuration = some loaded ∧ w.join loaded = some config ∧
      w.writeConfig config = none ∧
      StartInstance w instances instanceName configuration scriptBefore scriptAfter
        = ⟨some ⟨3, "Error writing configuration"⟩,
            [Effect.mkdirAll w.logdir true,
             Effect.getConfigurationById configuration true,
             Effect.join loaded true, Effect.getSettings,
             Effect.writeConfig config false],
            instances⟩) ∨
    (∃ loaded config ini1 ini2, Trim instanceName ≠ "" ∧ w.mkdirAll w.logdir = true ∧
      w.getConfigurationById configuration = some loaded ∧ w.join loaded = some config ∧
      w.writeConfig config = some (ini1, ini2) ∧
      w.create (w.logPath config (Trim instanceName)) = false ∧
      StartInstance w instances instanceName configuration scriptBefore scriptAfter
        = ⟨some ⟨6, "Error creating log file"⟩,
            [Effect.mkdirAll w.logdir true,
             Effect.getConfigurationById configuration true,
             Effect.join loaded true, Effect.getSettings,
             Effect.writeConfig config true,
             Effect.create (w.logPath config (Trim instanceName)) false,
             Effect.log Level.error "Error creating log file"],
            instances⟩) ∨
    (∃ loaded config ini1 ini2, Trim instanceName ≠ "" ∧ w.mkdirAll w.logdir = true ∧
      w.getConfigurationById configuration = some loaded ∧ w.join loaded = some config ∧
      w.writeConfig config = some (ini1, ini2) ∧
      w.create (w.logPath config (Trim instanceName)) = true ∧
      w.cmdStart w.exe (w.args ini1 ini2) w.getSettings.Folder
        ⟨w.logPath config (Trim instanceName)⟩ = none ∧
      StartInstance w instances instanceName configuration scriptBefore scriptAfter
        = ⟨some ⟨4, "Error starting instance"⟩,
            [Effect.mkdirAll w.logdir true,
             Effect.getConfigurationById configuration true,
             Effect.join loaded true, Effect.getSettings,
             Effect.writeConfig config true,
             Effect.create (w.logPath config (Trim instanceName)) true]
            ++ w.before scriptBefore ⟨w.logPath config (Trim instanceName)⟩
            ++ [Effect.cmdStart w.exe (w.args ini1 ini2) w.getSettings.Folder
                  ⟨w.logPath config (Trim instanceName)⟩ false,
                Effect.log Level.error "Error starting instance"],
            instances⟩) ∨
    (∃ loaded config ini1 ini2 pid, Trim instanceName ≠ "" ∧ w.mkdirAll w.logdir = true ∧
      w.getConfigurationById configuration = some loaded ∧ w.join loaded = some config ∧
      w.writeConfig config = some (ini1, ini2) ∧
      w.create (w.logPath config (Trim instanceName)) = true ∧
      w.cmdStart w.exe (w.args ini1 ini2) w.getSettings.Folder
        ⟨w.logPath config (Trim instanceName)⟩ = some pid ∧
      StartInstance w instances instanceName configuration scriptBefore scriptAfter
        = ⟨none,
            [Effect.mkdirAll w.logdir true,
             Effect.getConfigurationById configuration true,
             Effect.join loaded true, Effect.getSettings,
             Effect.writeConfig config true,
             Effect.create (w.logPath config (Trim instanceName)) true]
            ++ w.before scriptBefore ⟨w.logPath config (Trim instanceName)⟩
            ++ [Effect.cmdStart w.exe (w.args ini1 ini2) w.getSettings.Folder
                  ⟨w.logPath config (Trim instanceName)⟩ true]
            ++ w.after scriptAfter ⟨w.logPath config (Trim instanceName)⟩ pid
            ++ [Effect.log Level.debug "Adding new instance", Effect.lock,
                Effect.readInstances, Effect.writeInstances, Effect.unlock,
                Effect.goObserveProcess
                  (w.cmd ini1 ini2 ⟨w.logPath config (Trim instanceName)⟩ pid)],
            instances ++ [⟨pid, Trim instanceName, config.Id,
              w.cmd ini1 ini2 ⟨w.logPath config (Trim instanceName)⟩ pid,
              ⟨w.logPath config (Trim instanceName)⟩⟩]⟩) := by
  unfold StartInstance
  by_cases hname : Trim instanceName = ""
  · simp [hname]
  · by_cases hdir : w.mkdirAll w.logdir = false
    · simp [hname, hdir]
    · have hdir1 : w.mkdirAll w.logdir = true := by simpa using hdir
      cases hget : w.getConfigurationById configuration with
      | none => simp [hname, hdir1, hget]
      | some loaded =>
        cases hjoin : w.join loaded with
        | none => simp [hname, hdir1, hget, hjoin]
        | some config =>
          cases hwrite : w.writeConfig config with
          | none => simp [hname, hdir1, hget, hjoin, hwrite]
          | some inis =>
            obtain ⟨ini1, ini2⟩ := inis
            by_cases hcreate : w.create (w.logPath config (Trim instanceName)) = false
            · simp [hname, hdir1, hget, hjoin, hwrite, hcreate]
            · have hcreate1 : w.create (w.logPath config (Trim instanceName)) = true := by
                simpa using hcreate
              cases hstart : w.cmdStart w.exe (w.args ini1 ini2) w.getSettings.Folder
                  ⟨w.logPath config (Trim instanceName)⟩ with
              | none =>
                simp [hname, hdir1, hget, hjoin, hwrite, hcreate1, hstart]
                exact ⟨ini1, ini2, ⟨rfl, rfl⟩, hstart, rfl, rfl⟩
              | some pid =>
                simp [hname, hdir1, hget, hjoin, hwrite, hcreate1, hstart]
                exact ⟨ini1, ini2, ⟨rfl, rfl⟩, pid, hstart, ⟨⟨rfl, rfl⟩, rfl⟩, rfl, ⟨rfl, rfl⟩, rfl⟩

/-- C4: for every call of `StartInstance` whose trimmed name is not empty, the
stages run in the order directory creation, configuration lookup,
configuration join, configuration write, log-file creation, (pre-start hook,)
process start: the call returns the error of the first stage that fails, with
exactly the actions up to that stage performed and none of a later stage; the
codes 5, 2, 3, 6, 4 are returned by the failure of one stage each (directory,
configuration read, configuration write, log file, process start), and code 1
(invalid argument) is not returned at all. -/
theorem StartInstance_stage_order (w : World) (instances : List Instance)
    (instanceName : String) (configuration : Int) (scriptBefore scriptAfter : String)
    (hname : Trim instanceName ≠ "") :
    (w.mkdirAll w.logdir = false →
      (StartInstance w instances instanceName configuration scriptBefore scriptAfter).err = some
          ⟨5, "Error creating server log folder"⟩ ∧
      (StartInstance w instances instanceName configuration scriptBefore scriptAfter).effects
        = [Effect.mkdirAll w.logdir false,
           Effect.log Level.error "Error creating server log folder"]) ∧
    (w.mkdirAll w.logdir = true → w.getConfigurationById configuration = none →
      (StartInstance w instances instanceName configuration scriptBefore scriptAfter).err = some
          ⟨2, "Error reading configuration"⟩ ∧
      (StartInstance w instances instanceName configuration scriptBefore scriptAfter).effects
        = [Effect.mkdirAll w.logdir true, Effect.getConfigurationById configuration false,
           Effect.log Level.error "Error reading configuration to start instance"]) ∧
    (∀ loaded, w.mkdirAll w.logdir = true →
      w.getConfigurationById configuration = some loaded → w.join loaded = none →
      (StartInstance w instances instanceName configuration scriptBefore scriptAfter).err = some
          ⟨2, "Error reading configuration"⟩ ∧
      (StartInstance w instances instanceName configuration scriptBefore scriptAfter).effects
        = [Effect.mkdirAll w.logdir true, Effect.getConfigurationById configuration true,
           Effect.join loaded false,
           Effect.log Level.error
             "Error joining entities to configuration to start instance"]) ∧
    (∀ loaded config, w.mkdirAll w.logdir = true →
      w.getConfigurationById configuration = some loaded → w.join loaded = some config →
      w.writeConfig config = none →
      (StartInstance w instances instanceName configuration scriptBefore scriptAfter).err = some
          ⟨3, "Error writing configuration"⟩ ∧
      (StartInstance w instances instanceName configuration scriptBefore scriptAfter).effects
        = [Effect.mkdirAll w.logdir true, Effect.getConfigurationById configuration true,
           Effect.join loaded true, Effect.getSettings, Effect.writeConfig config false]) ∧
    (∀ loaded config ini1 ini2, w.mkdirAll w.logdir = true →
      w.getConfigurationById configuration = some loaded → w.join loaded = some config →
      w.writeConfig config = some (ini1, ini2) →
      w.create (w.logPath config (Trim instanceName)) = false →
      (StartInstance w instances instanceName configuration scriptBefore scriptAfter).err = some
          ⟨6, "Error creating log file"⟩ ∧
      (StartInstance w instances instanceName configuration scriptBefore scriptAfter).effects
        = [Effect.mkdirAll w.logdir true, Effect.getConfigurationById configuration true,
           Effect.join loaded true, Effect.getSettings, Effect.writeConfig config true,
           Effect.create (w.logPath config (Trim instanceName)) false,
           Effect.log Level.error "Error creating log file"]) ∧
    (∀ loaded config ini1 ini2, w.mkdirAll w.logdir = true →
      w.getConfigurationById configuration = some loaded → w.join loaded = some config →
      w.writeConfig config = some (ini1, ini2) →
      w.create (w.logPath config (Trim instanceName)) = true →
      w.cmdStart w.exe (w.args ini1 ini2) w.getSettings.Folder ⟨w.logPath config (Trim
          instanceName)⟩ = none →
      (StartInstance w instances instanceName configuration scriptBefore scriptAfter).err = some
          ⟨4, "Error starting instance"⟩ ∧
      (StartInstance w instances instanceName configuration scriptBefore scriptAfter).effects
        = [Effect.mkdirAll w.logdir true, Effect.getConfigurationById configuration true,
           Effect.join loaded true, Effect.getSettings, Effect.writeConfig config true,
           Effect.create (w.logPath config (Trim instanceName)) true]
          ++ w.before scriptBefore ⟨w.logPath config (Trim instanceName)⟩
          ++ [Effect.cmdStart w.exe (w.args ini1 ini2) w.getSettings.Folder
                ⟨w.logPath config (Trim instanceName)⟩ false,
              Effect.log Level.error "Error starting instance"]) ∧
    (∀ loaded config ini1 ini2 pid, w.mkdirAll w.logdir = true →
      w.getConfigurationById configuration = some loaded → w.join loaded = some config →
      w.writeConfig config = some (ini1, ini2) →
      w.create (w.logPath config (Trim instanceName)) = true →
      w.cmdStart w.exe (w.args ini1 ini2) w.getSettings.Folder ⟨w.logPath config (Trim
          instanceName)⟩ = some pid →
      (StartInstance w instances instanceName configuration scriptBefore scriptAfter).err = none ∧
      (StartInstance w instances instanceName configuration scriptBefore scriptAfter).effects
        = [Effect.mkdirAll w.logdir true, Effect.getConfigurationById configuration true,
           Effect.join loaded true, Effect.getSettings, Effect.writeConfig config true,
           Effect.create (w.logPath config (Trim instanceName)) true]
          ++ w.before scriptBefore ⟨w.logPath config (Trim instanceName)⟩
          ++ [Effect.cmdStart w.exe (w.args ini1 ini2) w.getSettings.Folder
                ⟨w.logPath config (Trim instanceName)⟩ true]
          ++ w.after scriptAfter ⟨w.logPath config (Trim instanceName)⟩ pid
          ++ [Effect.log Level.debug "Adding new instance", Effect.lock,
              Effect.readInstances, Effect.writeInstances, Effect.unlock,
              Effect.goObserveProcess (w.cmd ini1 ini2 ⟨w.logPath config (Trim instanceName)⟩
                  pid)]) ∧
    ((StartInstance w instances instanceName configuration scriptBefore scriptAfter).err.map
        OpError.Code = some 5 ↔
      Effect.mkdirAll w.logdir false ∈ (StartInstance w instances instanceName configuration
          scriptBefore scriptAfter).effects) ∧
    ((StartInstance w instances instanceName configuration scriptBefore scriptAfter).err.map
        OpError.Code = some 2 ↔
      (Effect.getConfigurationById configuration false ∈ (StartInstance w instances instanceName
          configuration scriptBefore scriptAfter).effects ∨
       ∃ c, Effect.join c false ∈ (StartInstance w instances instanceName configuration
           scriptBefore scriptAfter).effects)) ∧
    ((StartInstance w instances instanceName configuration scriptBefore scriptAfter).err.map
        OpError.Code = some 3 ↔
      ∃ c, Effect.writeConfig c false ∈ (StartInstance w instances instanceName configuration
          scriptBefore scriptAfter).effects) ∧
    ((StartInstance w instances instanceName configuration scriptBefore scriptAfter).err.map
        OpError.Code = some 6 ↔
      ∃ p, Effect.create p false ∈ (StartInstance w instances instanceName configuration
          scriptBefore scriptAfter).effects) ∧
    ((StartInstance w instances instanceName configuration scriptBefore scriptAfter).err.map
        OpError.Code = some 4 ↔
      ∃ p a d f, Effect.cmdStart p a d f false ∈ (StartInstance w instances instanceName
          configuration scriptBefore scriptAfter).effects) ∧
    (StartInstance w instances instanceName configuration scriptBefore scriptAfter).err.map
        OpError.Code ≠ some 1 := by
  rcases StartInstance_cases w instances instanceName configuration scriptBefore scriptAfter
    with ⟨hn, -⟩ | ⟨-, hdir, hR⟩ | ⟨-, hdir, hget, hR⟩ | ⟨loaded, -, hdir, hget, hjoin, hR⟩
      | ⟨loaded, config, -, hdir, hget, hjoin, hwrite, hR⟩
      | ⟨loaded, config, ini1, ini2, -, hdir, hget, hjoin, hwrite, hcreate, hR⟩
      | ⟨loaded, config, ini1, ini2, -, hdir, hget, hjoin, hwrite, hcreate, hstart, hR⟩
      | ⟨loaded, config, ini1, ini2, pid, -, hdir, hget, hjoin, hwrite, hcreate, hstart, hR⟩
  · exact absurd hn hname
  · refine ⟨?_, ?_, ?_, ?_, ?_, ?_, ?_, ?_, ?_, ?_, ?_, ?_, ?_⟩ <;> intros <;> simp_all
  · refine ⟨?_, ?_, ?_, ?_, ?_, ?_, ?_, ?_, ?_, ?_, ?_, ?_, ?_⟩ <;> intros <;> simp_all
  · refine ⟨?_, ?_, ?_, ?_, ?_, ?_, ?_, ?_, ?_, ?_, ?_, ?_, ?_⟩ <;> intros <;> simp_all
  · refine ⟨?_, ?_, ?_, ?_, ?_, ?_, ?_, ?_, ?_, ?_, ?_, ?_, ?_⟩ <;> intros <;> simp_all
  · refine ⟨?_, ?_, ?_, ?_, ?_, ?_, ?_, ?_, ?_, ?_, ?_, ?_, ?_⟩ <;> intros <;> simp_all
  · by_cases hsb : Trim scriptBefore = "" <;> cases hb : w.scriptBeforeStarts <;>
    refine ⟨?_, ?_, ?_, ?_, ?_, ?_, ?_, ?_, ?_, ?_, ?_, ?_, ?_⟩ <;> intros <;>
      simp_all [World.before, runScript]
  · by_cases hsb : Trim scriptBefore = "" <;> by_cases hsa : Trim scriptAfter = "" <;>
    cases hb : w.scriptBeforeStarts <;> cases ha : w.scriptAfterStarts <;>
    refine ⟨?_, ?_, ?_, ?_, ?_, ?_, ?_, ?_, ?_, ?_, ?_, ?_, ?_⟩ <;> intros <;>
      simp_all [World.before, World.after, runScript]

/-- With configuration 999 missing, the call stops after the lookup. -/
theorem StartInstance_stage_order_witness :
    Trim "race1" ≠ "" ∧
    (StartInstance demoWorld [] "race1" 999 "" "").err
      = some ⟨2, "Error reading configuration"⟩ ∧
    (StartInstance demoWorld [] "race1" 999 "" "").effects
      = [Effect.mkdirAll demoWorld.logdir true, Effect.getConfigurationById 999 false,
         Effect.log Level.error "Error reading configuration to start instance"] :=
  ⟨by decide,
   (StartInstance_stage_order demoWorld [] "race1" 999 "" "" (by decide)).2.1 rfl rfl⟩

/-- C5: for every call of `StartInstance` with a non-empty trimmed name in
which the configuration lookup or the join is performed and fails (which
happens exactly after a successful directory creation), the call returns
`OpError{2, "Error reading configuration"}`, the registry is left as it was,
no log file is created, no hook script and no server process is started, and
no exit observer is spawned. -/
theorem StartInstance_config_read_failure (w : World) (instances : List Instance)
    (instanceName : String) (configuration : Int) (scriptBefore scriptAfter : String)
    (hname : Trim instanceName ≠ "")
    (hfail : Effect.getConfigurationById configuration false ∈ (StartInstance w instances
        instanceName configuration scriptBefore scriptAfter).effects ∨
      ∃ c, Effect.join c false ∈ (StartInstance w instances instanceName configuration
          scriptBefore scriptAfter).effects) :
    (w.mkdirAll w.logdir = true ∧
      (w.getConfigurationById configuration = none ∨
       ∃ loaded, w.getConfigurationById configuration = some loaded ∧ w.join loaded = none)) ∧
    (StartInstance w instances instanceName configuration scriptBefore scriptAfter).err = some ⟨2,
        "Error reading configuration"⟩ ∧
    (StartInstance w instances instanceName configuration scriptBefore scriptAfter).instances =
        instances ∧
    (∀ p ok, Effect.create p ok ∉ (StartInstance w instances instanceName configuration
        scriptBefore scriptAfter).effects) ∧
    (∀ p a d f ok, Effect.scriptStart p a d f ok ∉ (StartInstance w instances instanceName
        configuration scriptBefore scriptAfter).effects) ∧
    (∀ p a d f ok, Effect.cmdStart p a d f ok ∉ (StartInstance w instances instanceName
        configuration scriptBefore scriptAfter).effects) ∧
    (∀ c, Effect.goObserveProcess c ∉ (StartInstance w instances instanceName configuration
        scriptBefore scriptAfter).effects) := by
  rcases StartInstance_cases w instances instanceName configuration scriptBefore scriptAfter
    with ⟨hn, -⟩ | ⟨-, hdir, hR⟩ | ⟨-, hdir, hget, hR⟩ | ⟨loaded, -, hdir, hget, hjoin, hR⟩
      | ⟨loaded, config, -, hdir, hget, hjoin, hwrite, hR⟩
      | ⟨loaded, config, ini1, ini2, -, hdir, hget, hjoin, hwrite, hcreate, hR⟩
      | ⟨loaded, config, ini1, ini2, -, hdir, hget, hjoin, hwrite, hcreate, hstart, hR⟩
      | ⟨loaded, config, ini1, ini2, pid, -, hdir, hget, hjoin, hwrite, hcreate, hstart, hR⟩
  · exact absurd hn hname
  · simp [hR] at hfail
  · simp [hR, hdir, hget]
  · simp [hR, hdir, hget, hjoin]
  · simp [hR] at hfail
  · simp [hR] at hfail
  · by_cases hsb : Trim scriptBefore = "" <;> cases hb : w.scriptBeforeStarts <;>
      simp [hR, World.before, runScript, hsb, hb] at hfail
  · by_cases hsb : Trim scriptBefore = "" <;> by_cases hsa : Trim scriptAfter = "" <;>
    cases hb : w.scriptBeforeStarts <;> cases ha : w.scriptAfterStarts <;>
      simp [hR, World.before, World.after, runScript, hsb, hsa, hb, ha] at hfail

/-- With configuration 999 missing, the call reports a read error and the
registry keeps its one instance. -/
theorem StartInstance_config_read_failure_witness :
    (Trim "race1" ≠ "" ∧
      (Effect.getConfigurationById 999 false
          ∈ (StartInstance demoWorld [demoInstance 7 "old"] "race1" 999 "a.sh" "b.sh").effects ∨
        ∃ c, Effect.join c false
          ∈ (StartInstance demoWorld [demoInstance 7 "old"] "race1" 999 "a.sh" "b.sh").effects)) ∧
    (StartInstance demoWorld [demoInstance 7 "old"] "race1" 999 "a.sh" "b.sh").err
      = some ⟨2, "Error reading configuration"⟩ ∧
    (StartInstance demoWorld [demoInstance 7 "old"] "race1" 999 "a.sh" "b.sh").instances
      = [demoInstance 7 "old"] :=
  ⟨⟨by decide, Or.inl (by decide)⟩,
   (StartInstance_config_read_failure demoWorld [demoInstance 7 "old"] "race1" 999 "a.sh" "b.sh"
      (by decide) (Or.inl (by decide))).2.1,
   (StartInstance_config_read_failure demoWorld [demoInstance 7 "old"] "race1" 999 "a.sh" "b.sh"
      (by decide) (Or.inl (by decide))).2.2.1⟩

/-! ## StartInstance: registration -/

/-- Counting a process id after one instance is appended. -/
theorem countPID_append_singleton (pid : Int) (instances : List Instance) (inst : Instance) :
    countPID pid (instances ++ [inst])
      = countPID pid instances + (if inst.PID = pid then 1 else 0) := by
  simp [countPID, List.countP_append, List.countP_cons]

/-- A process id that no instance carries is counted zero times. -/
theorem countPID_eq_zero_of_absent (pid : Int) (instances : List Instance)
    (h : ∀ i ∈ instances, i.PID ≠ pid) : countPID pid instances = 0 := by
  simp only [countPID, List.countP_eq_zero]
  intro i hi
  simpa using h i hi

/-- C1 (as amended): for every registry and every call of `StartInstance` that
returns no error, the registry that `GetAllInstances` returns right afterwards
is the earlier registry, unchanged and in order, followed by exactly one new
Instance that carries the process id of the started process, the trimmed name
and the id of the joined configuration; the process id occurs once more than
before the call, hence exactly once whenever no registered Instance carried
it before. -/
theorem StartInstance_success_appends (w : World) (instances : List Instance)
    (instanceName : String) (configuration : Int) (scriptBefore scriptAfter : String)
    (h : (StartInstance w instances instanceName configuration scriptBefore scriptAfter).err =
        none) :
    ∃ loaded config ini1 ini2 pid,
      w.getConfigurationById configuration = some loaded ∧ w.join loaded = some config ∧
      w.writeConfig config = some (ini1, ini2) ∧
      w.cmdStart w.exe (w.args ini1 ini2) w.getSettings.Folder ⟨w.logPath config (Trim
          instanceName)⟩ = some pid ∧
      (GetAllInstances (StartInstance w instances instanceName configuration scriptBefore
          scriptAfter).instances).instances
        = instances ++ [⟨pid, Trim instanceName, config.Id,
            w.cmd ini1 ini2 ⟨w.logPath config (Trim instanceName)⟩ pid, ⟨w.logPath config (Trim
                instanceName)⟩⟩] ∧
      countPID pid (GetAllInstances (StartInstance w instances instanceName configuration
          scriptBefore scriptAfter).instances).instances = countPID pid instances + 1 ∧
      ((∀ i ∈ instances, i.PID ≠ pid) →
        countPID pid (GetAllInstances (StartInstance w instances instanceName configuration
            scriptBefore scriptAfter).instances).instances = 1) := by
  rcases StartInstance_cases w instances instanceName configuration scriptBefore scriptAfter
    with ⟨-, hR⟩ | ⟨-, -, hR⟩ | ⟨-, -, -, hR⟩ | ⟨loaded, -, -, -, -, hR⟩
      | ⟨loaded, config, -, -, -, -, -, hR⟩
      | ⟨loaded, config, ini1, ini2, -, -, -, -, -, -, hR⟩
      | ⟨loaded, config, ini1, ini2, -, -, -, -, -, -, -, hR⟩
      | ⟨loaded, config, ini1, ini2, pid, -, hdir, hget, hjoin, hwrite, hcreate, hstart, hR⟩
  all_goals try (rw [hR] at h; simp at h)
  refine ⟨loaded, config, ini1, ini2, pid, hget, hjoin, hwrite, hstart, ?_, ?_, ?_⟩
  · simp [GetAllInstances, hR]
  · simp [GetAllInstances, hR, countPID_append_singleton]
  · intro hfresh
    simp [GetAllInstances, hR, countPID_append_singleton,
      countPID_eq_zero_of_absent pid instances hfresh]

/-- A successful start after process 5 appends one instance, named "race1". -/
theorem StartInstance_success_appends_witness :
    (StartInstance demoWorld [demoInstance 5 "old"] " race1 " 42 "" "").err = none ∧
    ∃ loaded config ini1 ini2 pid,
      demoWorld.getConfigurationById 42 = some loaded ∧ demoWorld.join loaded = some config ∧
      demoWorld.writeConfig config = some (ini1, ini2) ∧
      demoWorld.cmdStart demoWorld.exe (demoWorld.args ini1 ini2) demoWorld.getSettings.Folder
        ⟨demoWorld.logPath config (Trim " race1 ")⟩ = some pid ∧
      (GetAllInstances
          (StartInstance demoWorld [demoInstance 5 "old"] " race1 " 42 "" "").instances).instances
        = [demoInstance 5 "old"] ++ [⟨pid, Trim " race1 ", config.Id,
            demoWorld.cmd ini1 ini2 ⟨demoWorld.logPath config (Trim " race1 ")⟩ pid,
            ⟨demoWorld.logPath config (Trim " race1 ")⟩⟩] :=
  ⟨by decide,
   (StartInstance_success_appends demoWorld [demoInstance 5 "old"] " race1 " 42 "" ""
      (by decide)).imp fun _ h1 => h1.imp fun _ h2 => h2.imp fun _ h3 => h3.imp fun _ h4 =>
        h4.imp fun _ h5 => ⟨h5.1, h5.2.1, h5.2.2.1, h5.2.2.2.1, h5.2.2.2.2.1⟩⟩

/-- C1 (as stated) fails: with the Instance of process 7 still registered and
the id 7 no longer in use (the registry `startedOnce`, after the observer of
that process has returned from `cmd.Wait()`), a `StartInstance` that returns no
error and whose new process is given the id 7 leaves that id in the registry
twice. -/
theorem StartInstance_repeated_pid :
    OsReachable ⟨startedOnce, []⟩ ∧
    (StartInstance laterWorld startedOnce "race2" 42 "" "").err = none ∧
    (GetAllInstances
        (StartInstance laterWorld startedOnce "race2" 42 "" "").instances).instances
      = startedOnce ++
        [⟨7, "race2", 42,
          laterWorld.cmd "server_cfg.ini" "entry_list.ini"
            ⟨"/var/log/acweb/20240302_101530_42_race2.log"⟩ 7,
          ⟨"/var/log/acweb/20240302_101530_42_race2.log"⟩⟩] ∧
    startedOnce.map Instance.PID = [7] ∧
    countPID 7 (GetAllInstances
        (StartInstance laterWorld startedOnce "race2" 42 "" "").instances).instances
      = 2 := by
  exact ⟨startedOnce_waited_os, by decide⟩

/-! ## The exit observer -/

/-- The loop of `observeProcess` does nothing when no instance carries the id. -/
theorem removeLoop_of_absent (closes : File → Bool) (pid : Int) (instances : List Instance)
    (h : ∀ i ∈ instances, i.PID ≠ pid) :
    removeLoop closes pid instances = ([], instances) := by
  induction instances with
  | nil => rfl
  | cons a rest ih =>
    have ha : a.PID ≠ pid := h a (List.mem_cons_self a rest)
    have hrest : ∀ i ∈ rest, i.PID ≠ pid := fun i hi => h i (List.mem_cons_of_mem a hi)
    simp [removeLoop, ha, ih hrest]

/-- The loop of `observeProcess` closes the log file of the first instance that
carries the id and cuts that instance out. -/
theorem removeLoop_of_first (closes : File → Bool) (pid : Int)
    (front : List Instance) (inst : Instance) (back : List Instance)
    (hfront : ∀ j ∈ front, j.PID ≠ pid) (hinst : inst.PID = pid) :
    removeLoop closes pid (front ++ inst :: back)
      = ([Effect.close inst.File (closes inst.File)]
          ++ (if closes inst.File = false then
                [Effect.log Level.error "Error closing log file"]
              else [])
          ++ [Effect.readInstances, Effect.writeInstances,
              Effect.log Level.info "Instance removed"],
         front ++ back) := by
  induction front with
  | nil => simp [removeLoop, hinst]
  | cons a rest ih =>
    have ha : a.PID ≠ pid := hfront a (List.mem_cons_self a rest)
    have hrest : ∀ j ∈ rest, j.PID ≠ pid := fun j hj => hfront j (List.mem_cons_of_mem a hj)
    simp [removeLoop, ha, ih hrest]

/-- A registry with an instance of the id splits at the first such instance. -/
theorem exists_first_of_present (pid : Int) (instances : List Instance)
    (h : ∃ i ∈ instances, i.PID = pid) :
    ∃ front inst back, instances = front ++ inst :: back ∧
      (∀ j ∈ front, j.PID ≠ pid) ∧ inst.PID = pid := by
  induction instances with
  | nil => simp at h
  | cons a rest ih =>
    by_cases ha : a.PID = pid
    · exact ⟨[], a, rest, rfl, by simp, ha⟩
    · have hrest : ∃ i ∈ rest, i.PID = pid := by
        obtain ⟨i, hi, hp⟩ := h
        rcases List.mem_cons.mp hi with rfl | hi
        · exact absurd hp ha
        · exact ⟨i, hi, hp⟩
      obtain ⟨front, inst, back, hsplit, hfront, hinst⟩ := ih hrest
      refine ⟨a :: front, inst, back, by simp [hsplit], ?_, hinst⟩
      intro j hj
      rcases List.mem_cons.mp hj with rfl | hj
      · exact ha
      · exact hfront j hj

/-- What the loop of `observeProcess` leaves is a sublist of the registry. -/
theorem removeLoop_sublist (closes : File → Bool) (pid : Int) (instances : List Instance) :
    List.Sublist (removeLoop closes pid instances).2 instances := by
  induction instances with
  | nil => simp [removeLoop]
  | cons a rest ih =>
    by_cases ha : a.PID = pid
    · simp [removeLoop, ha]
    · simp [removeLoop, ha, ih]

/-- The loop of `observeProcess` keeps the instances of every other id, in order. -/
theorem removeLoop_filter_ne (closes : File → Bool) (pid : Int) (instances : List Instance) :
    (removeLoop closes pid instances).2.filter (fun i => decide (i.PID ≠ pid))
      = instances.filter (fun i => decide (i.PID ≠ pid)) := by
  induction instances with
  | nil => simp [removeLoop]
  | cons a rest ih =>
    by_cases ha : a.PID = pid
    · simp [removeLoop, ha]
    · simp only [removeLoop, ha, if_false]
      rw [List.filter_cons, List.filter_cons, ih]

/-- The loop of `observeProcess` lowers the count of the id by one, if it can. -/
theorem removeLoop_countPID (closes : File → Bool) (pid : Int) (instances : List Instance) :
    countPID pid (removeLoop closes pid instances).2 = countPID pid instances - 1 := by
  induction instances with
  | nil => simp [removeLoop, countPID]
  | cons a rest ih =>
    by_cases ha : a.PID = pid
    · simp [removeLoop, ha, countPID]
    · have h0 : countPID pid (a :: (removeLoop closes pid rest).2)
          = countPID pid (removeLoop closes pid rest).2 := by
        simp [countPID, List.countP_cons, ha]
      have h1 : countPID pid (a :: rest) = countPID pid rest := by
        simp [countPID, List.countP_cons, ha]
      simp only [removeLoop, ha, if_false, h0, h1, ih]

/-- An id counted zero times is carried by no instance. -/
theorem not_mem_of_countPID_eq_zero (pid : Int) (instances : List Instance)
    (h : countPID pid instances = 0) : ∀ i ∈ instances, i.PID ≠ pid := by
  intro i hi
  have := (List.countP_eq_zero.mp h) i hi
  simpa using this

/-- The only files `observeProcess` closes are those its loop closes. -/
theorem closedFiles_observe (waited : WaitResult) (cmd : Cmd) (mid : List Effect) :
    closedFiles
      ([Effect.wait cmd] ++
        (if waited = WaitResult.exited then []
         else [Effect.log Level.error "Error when instance stopped"])
        ++ [Effect.lock, Effect.readInstances] ++ mid ++ [Effect.unlock])
      = closedFiles mid := by
  by_cases hw : waited = WaitResult.exited <;>
    simp [closedFiles, hw, List.filterMap_append, List.filterMap_cons]

/-- C7 (as amended): for every registry and every process id p, the removal
step of the exit observer for p removes the first Instance with process id p,
if there is one, and closes the log file of that Instance exactly once,
whether or not the close reports an error; when no Instance carries p it
closes nothing and changes nothing.  Every Instance with a different process
id stays, in the same relative order; the number of Instances carrying p drops
by one, so that none is left whenever at most one carried p before; and with
two registered instances, removing the first leaves exactly the second. -/
theorem observeProcess_removes_first (waited : WaitResult) (closes : File → Bool)
    (instances : List Instance) (cmd : Cmd) :
    ((∀ i ∈ instances, i.PID ≠ cmd.Process.Pid) →
      (observeProcess waited closes instances cmd).instances = instances ∧
      closedFiles (observeProcess waited closes instances cmd).effects = []) ∧
    (∀ front inst back, instances = front ++ inst :: back →
      (∀ j ∈ front, j.PID ≠ cmd.Process.Pid) → inst.PID = cmd.Process.Pid →
      (observeProcess waited closes instances cmd).instances = front ++ back ∧
      closedFiles (observeProcess waited closes instances cmd).effects = [inst.File]) ∧
    ((∃ i ∈ instances, i.PID = cmd.Process.Pid) →
      ∃ front inst back, instances = front ++ inst :: back ∧
        (∀ j ∈ front, j.PID ≠ cmd.Process.Pid) ∧ inst.PID = cmd.Process.Pid ∧
        (observeProcess waited closes instances cmd).instances = front ++ back ∧
        closedFiles (observeProcess waited closes instances cmd).effects = [inst.File]) ∧
    ((observeProcess waited closes instances cmd).instances.filter
        (fun i => decide (i.PID ≠ cmd.Process.Pid))
      = instances.filter (fun i => decide (i.PID ≠ cmd.Process.Pid))) ∧
    (countPID cmd.Process.Pid (observeProcess waited closes instances cmd).instances
      = countPID cmd.Process.Pid instances - 1) ∧
    (countPID cmd.Process.Pid instances ≤ 1 →
      ∀ i ∈ (observeProcess waited closes instances cmd).instances,
        i.PID ≠ cmd.Process.Pid) ∧
    (∀ a b : Instance, a.PID = cmd.Process.Pid →
      (observeProcess waited closes [a, b] cmd).instances = [b]) := by
  have hfirst : ∀ front inst back, instances = front ++ inst :: back →
      (∀ j ∈ front, j.PID ≠ cmd.Process.Pid) → inst.PID = cmd.Process.Pid →
      (observeProcess waited closes instances cmd).instances = front ++ back ∧
      closedFiles (observeProcess waited closes instances cmd).effects = [inst.File] := by
    intro front inst back hsplit hfront hinst
    subst hsplit
    refine ⟨by simp [observeProcess, removeLoop_of_first closes _ front inst back hfront hinst],
      ?_⟩
    unfold observeProcess
    simp only [closedFiles_observe, removeLoop_of_first closes _ front inst back hfront hinst]
    by_cases hc : closes inst.File = false <;> simp [closedFiles, hc]
  refine ⟨?_, hfirst, ?_, ?_, ?_, ?_, ?_⟩
  · intro h
    refine ⟨by simp [observeProcess, removeLoop_of_absent closes _ instances h], ?_⟩
    unfold observeProcess
    simp only [closedFiles_observe, removeLoop_of_absent closes _ instances h]
    rfl
  · intro h
    obtain ⟨front, inst, back, hsplit, hfront, hinst⟩ :=
      exists_first_of_present cmd.Process.Pid instances h
    exact ⟨front, inst, back, hsplit, hfront, hinst, hfirst front inst back hsplit hfront hinst⟩
  · exact removeLoop_filter_ne closes cmd.Process.Pid instances
  · exact removeLoop_countPID closes cmd.Process.Pid instances
  · intro hle
    apply not_mem_of_countPID_eq_zero
    show countPID cmd.Process.Pid (removeLoop closes cmd.Process.Pid instances).2 = 0
    rw [removeLoop_countPID]
    omega
  · intro a b ha
    simp [observeProcess, removeLoop, ha]

/-- With processes 7 and 8 registered, the observer of process 7 removes the
first instance and closes its log file, although the close fails. -/
theorem observeProcess_removes_first_witness :
    (∀ j ∈ ([] : List Instance), j.PID ≠ (demoInstance 7 "race1").Cmd.Process.Pid) ∧
    (observeProcess WaitResult.exitError (fun _ => false)
        [demoInstance 7 "race1", demoInstance 8 "race2"] (demoInstance 7 "race1").Cmd).instances
      = [] ++ [demoInstance 8 "race2"] ∧
    closedFiles (observeProcess WaitResult.exitError (fun _ => false)
        [demoInstance 7 "race1", demoInstance 8 "race2"] (demoInstance 7 "race1").Cmd).effects
      = [(demoInstance 7 "race1").File] :=
  ⟨by decide,
   (observeProcess_removes_first WaitResult.exitError (fun _ => false)
      [demoInstance 7 "race1", demoInstance 8 "race2"] (demoInstance 7 "race1").Cmd).2.1
      [] (demoInstance 7 "race1") [demoInstance 8 "race2"] rfl (by decide) rfl⟩

/-- C7 (as stated) fails: in the reachable registry `startedTwice`, where two
Instances carry the process id 7, the removal step of the observer of the
first process removes only the first of them; the Instance "race2" with
process id 7 is still registered afterwards. -/
theorem observeProcess_leaves_second_of_same_pid :
    OsReachable ⟨startedTwice, [7]⟩ ∧ startedTwice.map Instance.PID = [7, 7] ∧
    ((observeProcess WaitResult.exited (fun _ => true) startedTwice
        (demoWorld.cmd "server_cfg.ini" "entry_list.ini"
          ⟨"/var/log/acweb/20240302_101530_42_race1.log"⟩ 7)).instances.map
        (fun i => (i.PID, i.Name))) = [(7, "race2")] ∧
    ∃ i ∈ (observeProcess WaitResult.exited (fun _ => true) startedTwice
        (demoWorld.cmd "server_cfg.ini" "entry_list.ini"
          ⟨"/var/log/acweb/20240302_101530_42_race1.log"⟩ 7)).instances,
      i.PID = 7 := by
  exact ⟨startedTwice_os, by decide⟩

/-! ## The registry invariant -/

/-- A `StartInstance` in surroundings with fresh ids keeps the ids unique. -/
theorem unique_after_start (w : World) (instances : List Instance) (instanceName : String)
    (configuration : Int) (scriptBefore scriptAfter : String)
    (hfresh : FreshPids w instances) (hinv : ∀ pid, countPID pid instances ≤ 1) :
    ∀ pid, countPID pid (StartInstance w instances instanceName configuration scriptBefore
        scriptAfter).instances ≤ 1 := by
  intro q
  rcases StartInstance_cases w instances instanceName configuration scriptBefore scriptAfter
    with ⟨-, hR⟩ | ⟨-, -, hR⟩ | ⟨-, -, -, hR⟩ | ⟨loaded, -, -, -, -, hR⟩
      | ⟨loaded, config, -, -, -, -, -, hR⟩
      | ⟨loaded, config, ini1, ini2, -, -, -, -, -, -, hR⟩
      | ⟨loaded, config, ini1, ini2, -, -, -, -, -, -, -, hR⟩
      | ⟨loaded, config, ini1, ini2, pid, -, -, -, -, -, -, hstart, hR⟩
  all_goals try (rw [hR]; exact hinv q)
  rw [hR]
  simp only [countPID_append_singleton]
  by_cases hq : pid = q
  · subst hq
    have h0 := countPID_eq_zero_of_absent pid instances (hfresh _ _ _ _ pid hstart)
    simp [h0]
  · have := hinv q
    simp [hq, this]

/-- The removal step of an observer keeps the ids unique. -/
theorem unique_after_observe (waited : WaitResult) (closes : File → Bool)
    (instances : List Instance) (cmd : Cmd) (hinv : ∀ pid, countPID pid instances ≤ 1) :
    ∀ pid, countPID pid (observeProcess waited closes instances cmd).instances ≤ 1 := by
  intro q
  have hsub := removeLoop_sublist closes cmd.Process.Pid instances
  have hle : countPID q (removeLoop closes cmd.Process.Pid instances).2
      ≤ countPID q instances := hsub.countP_le _
  exact le_trans hle (hinv q)

/-- C8 (as amended): in every registry reachable from the empty registry by
any sequence of `StartInstance`, `StopInstance` and exit-observer steps in
which each started process is given a process id that no registered Instance
carries at that moment, at most one Instance with a given process id is
registered. -/
theorem registry_pids_unique (instances : List Instance) (h : FreshReachable instances) :
    ∀ pid, countPID pid instances ≤ 1 := by
  induction h with
  | init => intro pid; simp [countPID]
  | step a b _ hstep ih =>
    cases hstep with
    | start w _ instanceName configuration scriptBefore scriptAfter hfresh =>
      exact unique_after_start w a instanceName configuration scriptBefore scriptAfter hfresh ih
    | stop kill _ pid => exact ih
    | observe waited closes _ cmd => exact unique_after_observe waited closes a cmd ih

/-- The registry `startedOnce` is reached by a fresh step. -/
theorem startedOnce_fresh : FreshReachable startedOnce :=
  FreshReachable.step [] startedOnce FreshReachable.init
    (FreshStep.start demoWorld [] "race1" 42 "" "" (by intro _ _ _ _ _ _ i hi; cases hi))

/-- The registry `startedApart` is reached by two fresh steps. -/
theorem startedApart_fresh : FreshReachable startedApart :=
  FreshReachable.step startedOnce startedApart startedOnce_fresh
    (FreshStep.start (worldWith 8 1) startedOnce "race2" 42 "" "" (by
      intro _ _ _ _ pid hpid i hi
      have h8 : pid = 8 := by
        simp only [worldWith, Option.some.injEq] at hpid
        exact hpid.symm
      subst h8
      revert i hi
      decide))

/-- Two starts that are given the ids 7 and 8 keep the ids unique. -/
theorem registry_pids_unique_witness :
    FreshReachable startedApart ∧ startedApart.map Instance.PID = [7, 8] ∧
    ∀ pid, countPID pid startedApart ≤ 1 :=
  ⟨startedApart_fresh, by decide, registry_pids_unique startedApart startedApart_fresh⟩

/-- C8 (as stated) fails: two `StartInstance` steps from the empty registry
whose processes are both given the id 7, with no observer removal in between,
reach a registry in which two Instances carry the process id 7.  The registry
is reached even when the operating system hands out no id in use: the first
process has exited and its observer has returned from `cmd.Wait()`, but has
not yet removed the entry, when the second process is started. -/
theorem reachable_with_repeated_pid :
    Reachable startedTwice ∧ OsReachable ⟨startedTwice, [7]⟩ ∧
    startedTwice.map Instance.PID = [7, 7] ∧ countPID 7 startedTwice = 2 :=
  ⟨Reachable.step startedOnce startedTwice
      (Reachable.step [] startedOnce Reachable.init
        (Step.start demoWorld [] "race1" 42 "" ""))
      (Step.start laterWorld startedOnce "race2" 42 "" ""),
   startedTwice_os, by decide, by decide⟩

/-! ## The log file -/

/-- A number of at most `width` digits is padded to exactly `width` characters. -/
theorem appendInt_length (x width : Nat) (hw : 0 < width) (hx : x < 10 ^ width) :
    (appendInt x width).length = width := by
  have hlen : (Nat.repr x).data.length ≤ width := Nat.repr_length x width hw hx
  simp only [appendInt, String.length, List.length_append, List.length_replicate]
  omega

/-- The time stamp has 15 characters when the year has at most four digits. -/
theorem Format_length (t : Time) (hy : t.Year < 10000) (hmo : t.Month < 100)
    (hd : t.Day < 100) (hh : t.Hour < 100) (hmi : t.Minute < 100) (hs : t.Second < 100) :
    t.Format.length = 15 := by
  simp only [Time.Format, String.length_append,
    appendInt_length t.Year 4 (by decide) (by simpa using hy),
    appendInt_length t.Month 2 (by decide) (by simpa using hmo),
    appendInt_length t.Day 2 (by decide) (by simpa using hd),
    appendInt_length t.Hour 2 (by decide) (by simpa using hh),
    appendInt_length t.Minute 2 (by decide) (by simpa using hmi),
    appendInt_length t.Second 2 (by decide) (by simpa using hs)]
  rfl

/-- A path has at least one element. -/
theorem splitPath_ne_nil (a : List Char) : splitPath a ≠ [] := by
  cases a with
  | nil => simp [splitPath]
  | cons c cs =>
    by_cases hc : c = Separator
    · simp [splitPath, hc]
    · cases hsplit : splitPath cs <;> simp [splitPath, hc, hsplit]

/-- Splitting a path at a separator splits its elements. -/
theorem splitPath_append (a b : List Char) :
    splitPath (a ++ Separator :: b) = splitPath a ++ splitPath b := by
  induction a with
  | nil => simp [splitPath]
  | cons c cs ih =>
    by_cases hc : c = Separator
    · simp [splitPath, hc, ih]
    · cases hsplit : splitPath cs with
      | nil => exact absurd hsplit (splitPath_ne_nil cs)
      | cons e es => simp [splitPath, hc, ih, hsplit]

/-- A path without separator is one element. -/
theorem splitPath_of_no_separator (b : List Char) (h : Separator ∉ b) :
    splitPath b = [b] := by
  induction b with
  | nil => rfl
  | cons c cs ih =>
    have hc : c ≠ Separator := fun hc => h (by simp [hc])
    have hcs : Separator ∉ cs := fun hcs => h (List.mem_cons_of_mem c hcs)
    simp [splitPath, hc, ih hcs]

/-- The decimal digits of a number hold no separator. -/
theorem separator_not_mem_toDigitsCore (fuel n : Nat) (ds : List Char)
    (h : Separator ∉ ds) : Separator ∉ Nat.toDigitsCore 10 fuel n ds := by
  induction fuel generalizing n ds with
  | zero => simpa [Nat.toDigitsCore] using h
  | succ fuel ih =>
    have hdigit : ∀ m, m < 10 → Nat.digitChar m ≠ Separator := by decide
    have hd : Separator ≠ Nat.digitChar (n % 10) :=
      fun heq => hdigit (n % 10) (Nat.mod_lt n (by decide)) heq.symm
    have hcons : Separator ∉ Nat.digitChar (n % 10) :: ds := by
      intro hmem
      rcases List.mem_cons.mp hmem with heq | hmem
      · exact hd heq
      · exact h hmem
    simp only [Nat.toDigitsCore]
    split
    · exact hcons
    · exact ih (n / 10) _ hcons

/-- The decimal rendering of a natural number holds no separator. -/
theorem separator_not_mem_repr (n : Nat) : Separator ∉ (Nat.repr n).data := by
  simp only [Nat.repr, Nat.toDigits, List.asString]
  exact separator_not_mem_toDigitsCore (n + 1) n [] (by simp)

/-- A padded number holds no separator. -/
theorem separator_not_mem_appendInt (x width : Nat) :
    Separator ∉ (appendInt x width).data := by
  have hzero : Separator ≠ Char.ofNat 48 := by decide
  have hrepr := separator_not_mem_repr x
  simp only [appendInt, List.mem_append, List.mem_replicate, not_or]
  exact ⟨fun hmem => hzero hmem.2, hrepr⟩

/-- The name of the log file holds a separator only if the instance name does. -/
theorem separator_not_mem_logName (now : Time) (configId : Int) (instanceName : String)
    (h : Separator ∉ instanceName.data) :
    Separator ∉ (logName now configId instanceName).data := by
  have hid : Separator ∉ (int64ToStr configId).data := by
    cases configId with
    | ofNat n => exact separator_not_mem_repr n
    | negSucc n =>
      have hrepr := separator_not_mem_repr (n + 1)
      have hminus : Separator ∉ "-".data := by decide
      simp only [int64ToStr, String.data_append, List.mem_append, not_or]
      exact ⟨hminus, hrepr⟩
  have hunder : Separator ∉ "_".data := by decide
  have hlog : Separator ∉ ".log".data := by decide
  have happ : ∀ a b : String, Separator ∉ a.data → Separator ∉ b.data →
      Separator ∉ (a ++ b).data := by
    intro a b ha hb
    simp only [String.data_append, List.mem_append, not_or]
    exact ⟨ha, hb⟩
  have hstamp : Separator ∉ now.Format.data :=
    happ _ _ (happ _ _ (happ _ _ (happ _ _ (happ _ _ (happ _ _
      (separator_not_mem_appendInt now.Year 4) (separator_not_mem_appendInt now.Month 2))
      (separator_not_mem_appendInt now.Day 2)) hunder)
      (separator_not_mem_appendInt now.Hour 2)) (separator_not_mem_appendInt now.Minute 2))
      (separator_not_mem_appendInt now.Second 2)
  exact happ _ _ (happ _ _ (happ _ _ (happ _ _ (happ _ _ hstamp hunder) hid) hunder) h) hlog

/-- The name of the log file has at least the four characters of `.log`. -/
theorem logName_length (now : Time) (configId : Int) (instanceName : String) :
    4 ≤ (logName now configId instanceName).data.length := by
  have hlog : ".log".data.length = 4 := by decide
  simp only [logName, String.data_append, List.length_append, hlog]
  omega

/-- Joining a directory and a name that is one ordinary path element yields the
elements of the cleaned directory followed by that name. -/
theorem Join_of_plain_name (dir name : String) (hsep : Separator ∉ name.data)
    (hlen : 4 ≤ name.data.length) :
    filepath.Join dir name
      = filepath.render (filepath.rooted dir) (filepath.elems dir ++ [name.data]) := by
  have hne : name.data ≠ [] := by
    intro h0
    rw [h0] at hlen
    simp at hlen
  have hdot : name.data ≠ dot := by
    intro h0
    rw [h0] at hlen
    simp [dot] at hlen
  have hdotdot : name.data ≠ dotdot := by
    intro h0
    rw [h0] at hlen
    simp [dotdot] at hlen
  have hstep : ∀ rooted out, cleanStep rooted out name.data = name.data :: out := by
    intro rooted out
    simp [cleanStep, hne, hdot, hdotdot]
  have hname : name ≠ "" := by
    intro h0
    rw [h0] at hne
    exact hne rfl
  by_cases hdir : dir = ""
  · subst hdir
    have hroot : filepath.rooted name = false := by
      cases hdata : name.data with
      | nil => exact absurd hdata hne
      | cons c cs =>
        have hc : c ≠ Separator := fun hc => hsep (by simp [hdata, hc])
        simp [filepath.rooted, hdata, hc]
    have helems : filepath.elems name = [name.data] := by
      simp [filepath.elems, splitPath_of_no_separator name.data hsep, hstep]
    have hempty : filepath.elems "" = [] := by decide
    have hrootEmpty : filepath.rooted "" = false := by decide
    simp [filepath.Join, filepath.Clean, hname, hroot, helems, hempty, hrootEmpty]
  · have hdata : dir.data ≠ [] := by
      intro h0
      apply hdir
      cases dir
      simp_all
    have hjoined : (dir ++ "/" ++ name).data = dir.data ++ Separator :: name.data := by
      simp [String.data_append, Separator]
    have hnonempty : dir ++ "/" ++ name ≠ "" := by
      intro h0
      have := congrArg String.data h0
      rw [hjoined] at this
      simp at this
    have hroot : filepath.rooted (dir ++ "/" ++ name) = filepath.rooted dir := by
      cases hd : dir.data with
      | nil => exact absurd hd hdata
      | cons c cs => simp [filepath.rooted, hjoined, hd]
    have helems : filepath.elems (dir ++ "/" ++ name) = filepath.elems dir ++ [name.data] := by
      simp only [filepath.elems, hroot, hjoined, splitPath_append,
        splitPath_of_no_separator name.data hsep, List.foldl_append, List.foldl_cons,
        List.foldl_nil, hstep, List.reverse_cons]
    simp [filepath.Join, filepath.Clean, hdir, hnonempty, hroot, helems]

/-- C9 (as amended): for every start time, configuration and instance name, a
call of `StartInstance` either creates no file, or creates exactly one, at the
path `filepath.Join(<log directory>, N)` with
`N = <YYYYMMDD_HHMMSS of the start time>_<id of the configuration, in
decimal>_<trimmed instance name>.log`; a call that returns no error does create
it.  When the trimmed instance name holds no path separator, that path is the
(cleaned) log directory followed by the one element `N`: the file is named `N`
in the log directory.  The time stamp has 15 characters for every time whose
year has at most four digits.  For the name "race1", configuration 42 and the
time 2024-03-02 10:15:30 the file is `20240302_101530_42_race1.log` in the log
directory. -/
theorem StartInstance_log_file_name (w : World) (instances : List Instance)
    (instanceName : String) (configuration : Int) (scriptBefore scriptAfter : String) :
    ((createdFiles (StartInstance w instances instanceName configuration scriptBefore
        scriptAfter).effects = [] ∧ (StartInstance w instances instanceName configuration
        scriptBefore scriptAfter).err ≠ none) ∨
      ∃ loaded config, w.getConfigurationById configuration = some loaded ∧
        w.join loaded = some config ∧
        createdFiles (StartInstance w instances instanceName configuration scriptBefore
            scriptAfter).effects
          = [w.pathJoin (w.getenv "ACWEB_INSTANCE_LOGDIR")
              (w.now.Format ++ "_" ++ int64ToStr config.Id ++ "_" ++ Trim instanceName
                ++ ".log")] ∧
        (w.pathJoin = filepath.Join → Separator ∉ (Trim instanceName).data →
          createdFiles (StartInstance w instances instanceName configuration scriptBefore
              scriptAfter).effects
            = [filepath.render (filepath.rooted (w.getenv "ACWEB_INSTANCE_LOGDIR"))
                (filepath.elems (w.getenv "ACWEB_INSTANCE_LOGDIR")
                  ++ [(w.now.Format ++ "_" ++ int64ToStr config.Id ++ "_"
                        ++ Trim instanceName ++ ".log").data])])) ∧
    (w.now.Year < 10000 ∧ w.now.Month < 100 ∧ w.now.Day < 100 ∧ w.now.Hour < 100 ∧
        w.now.Minute < 100 ∧ w.now.Second < 100 →
      w.now.Format.length = 15) ∧
    (⟨2024, 3, 2, 10, 15, 30⟩ : Time).Format = "20240302_101530" ∧
    int64ToStr 42 = "42" ∧
    logName ⟨2024, 3, 2, 10, 15, 30⟩ 42 "race1" = "20240302_101530_42_race1.log" ∧
    createdFiles (StartInstance demoWorld [] "race1" 42 "" "").effects
      = ["/var/log/acweb/20240302_101530_42_race1.log"] := by
  refine ⟨?_, ?_, by decide, by decide, by decide, by decide⟩
  · have hplain : ∀ config : Configuration, w.pathJoin = filepath.Join →
        Separator ∉ (Trim instanceName).data →
        w.pathJoin (w.getenv "ACWEB_INSTANCE_LOGDIR")
            (w.now.Format ++ "_" ++ int64ToStr config.Id ++ "_" ++ Trim instanceName ++ ".log")
          = filepath.render (filepath.rooted (w.getenv "ACWEB_INSTANCE_LOGDIR"))
              (filepath.elems (w.getenv "ACWEB_INSTANCE_LOGDIR")
                ++ [(w.now.Format ++ "_" ++ int64ToStr config.Id ++ "_"
                      ++ Trim instanceName ++ ".log").data]) := by
      intro config hjoin hsep
      rw [hjoin]
      exact Join_of_plain_name _ _
        (separator_not_mem_logName w.now config.Id (Trim instanceName) hsep)
        (logName_length w.now config.Id (Trim instanceName))
    have hpath : ∀ config : Configuration,
        w.logPath config (Trim instanceName)
          = w.pathJoin (w.getenv "ACWEB_INSTANCE_LOGDIR")
              (w.now.Format ++ "_" ++ int64ToStr config.Id ++ "_" ++ Trim instanceName
                ++ ".log") := fun _ => rfl
    rcases StartInstance_cases w instances instanceName configuration scriptBefore scriptAfter
      with ⟨-, hR⟩ | ⟨-, -, hR⟩ | ⟨-, -, -, hR⟩ | ⟨loaded, -, -, -, -, hR⟩
        | ⟨loaded, config, -, -, -, -, -, hR⟩
        | ⟨loaded, config, ini1, ini2, -, -, hget, hjoin, -, hcreate, hR⟩
        | ⟨loaded, config, ini1, ini2, -, -, hget, hjoin, -, hcreate, -, hR⟩
        | ⟨loaded, config, ini1, ini2, pid, -, -, hget, hjoin, -, hcreate, -, hR⟩
    · exact Or.inl (by simp [hR, createdFiles])
    · exact Or.inl (by simp [hR, createdFiles])
    · exact Or.inl (by simp [hR, createdFiles])
    · exact Or.inl (by simp [hR, createdFiles])
    · exact Or.inl (by simp [hR, createdFiles])
    · exact Or.inl (by simp [hR, createdFiles])
    · have hfiles : createdFiles (StartInstance w instances instanceName configuration
        scriptBefore scriptAfter).effects = [w.logPath config (Trim instanceName)] := by
        by_cases hsb : Trim scriptBefore = "" <;> cases hb : w.scriptBeforeStarts <;>
          simp [hR, createdFiles, World.before, runScript, hsb, hb]
      refine Or.inr ⟨loaded, config, hget, hjoin, ?_, ?_⟩
      · rw [hfiles, hpath]
      · intro hj hsep
        rw [hfiles, hpath, hplain config hj hsep]
    · have hfiles : createdFiles (StartInstance w instances instanceName configuration
        scriptBefore scriptAfter).effects = [w.logPath config (Trim instanceName)] := by
        by_cases hsb : Trim scriptBefore = "" <;> by_cases hsa : Trim scriptAfter = "" <;>
        cases hb : w.scriptBeforeStarts <;> cases ha : w.scriptAfterStarts <;>
          simp [hR, createdFiles, World.before, World.after, runScript, hsb, hsa, hb, ha]
      refine Or.inr ⟨loaded, config, hget, hjoin, ?_, ?_⟩
      · rw [hfiles, hpath]
      · intro hj hsep
        rw [hfiles, hpath, hplain config hj hsep]
  · rintro ⟨hy, hmo, hd, hh, hmi, hs⟩
    exact Format_length w.now hy hmo hd hh hmi hs

/-- The name "race1" holds no separator: in `demoWorld` the log file is the
element `20240302_101530_42_race1.log` after the elements of `/var/log/acweb`,
and the time stamp has 15 characters. -/
theorem StartInstance_log_file_name_witness :
    (demoWorld.pathJoin = filepath.Join ∧ Separator ∉ (Trim "race1").data) ∧
    (demoWorld.now.Year < 10000 ∧ demoWorld.now.Month < 100 ∧ demoWorld.now.Day < 100 ∧
      demoWorld.now.Hour < 100 ∧ demoWorld.now.Minute < 100 ∧ demoWorld.now.Second < 100) ∧
    createdFiles (StartInstance demoWorld [] "race1" 42 "" "").effects
      = [filepath.render (filepath.rooted "/var/log/acweb")
          (filepath.elems "/var/log/acweb" ++ ["20240302_101530_42_race1.log".data])] ∧
    demoWorld.now.Format.length = 15 := by
  have h := StartInstance_log_file_name demoWorld [] "race1" 42 "" ""
  refine ⟨⟨rfl, by decide⟩, by decide, ?_, h.2.1 (by decide)⟩
  rcases h.1 with ⟨-, herr⟩ | ⟨loaded, config, hget, hjoin, -, hplain⟩
  · exact absurd (by decide) herr
  · have hloaded : loaded = ⟨42, []⟩ := by
      have h42 : demoWorld.getConfigurationById 42 = some ⟨42, []⟩ := by decide
      rw [h42] at hget
      exact (Option.some.inj hget).symm
    subst hloaded
    have hconfig : config = ⟨42, []⟩ := by
      have h42 : demoWorld.join ⟨42, []⟩ = some ⟨42, []⟩ := by decide
      rw [h42] at hjoin
      exact (Option.some.inj hjoin).symm
    subst hconfig
    have hfiles := hplain rfl (by decide)
    rw [hfiles]
    decide

/-- C9 (as stated) fails: for the instance name "a/../b", configuration 42 and
the time 2024-03-02 10:15:30 the call returns no error and the one file it
creates is `b.log` in the log directory `/var/log/acweb`, not a file named
`20240302_101530_42_a/../b.log`. -/
theorem StartInstance_log_file_of_dotted_name :
    (StartInstance demoWorld [] "a/../b" 42 "" "").err = none ∧
    demoWorld.getenv "ACWEB_INSTANCE_LOGDIR" = "/var/log/acweb" ∧
    logName demoWorld.now 42 (Trim "a/../b") = "20240302_101530_42_a/../b.log" ∧
    createdFiles (StartInstance demoWorld [] "a/../b" 42 "" "").effects
      = ["/var/log/acweb/b.log"] := by
  decide

/-! ## The registry lock -/

/-- Every registry access of `StartInstance` is made under the lock. -/
theorem StartInstance_under_lock (w : World) (instances : List Instance)
    (instanceName : String) (configuration : Int) (scriptBefore scriptAfter : String) :
    accessesUnderLock false (StartInstance w instances instanceName configuration scriptBefore
        scriptAfter).effects = true := by
  rcases StartInstance_cases w instances instanceName configuration scriptBefore scriptAfter
    with ⟨-, hR⟩ | ⟨-, -, hR⟩ | ⟨-, -, -, hR⟩ | ⟨loaded, -, -, -, -, hR⟩
      | ⟨loaded, config, -, -, -, -, -, hR⟩
      | ⟨loaded, config, ini1, ini2, -, -, -, -, -, -, hR⟩
      | ⟨loaded, config, ini1, ini2, -, -, -, -, -, -, -, hR⟩
      | ⟨loaded, config, ini1, ini2, pid, -, -, -, -, -, -, -, hR⟩
  · simp [hR, accessesUnderLock]
  · simp [hR, accessesUnderLock]
  · simp [hR, accessesUnderLock]
  · simp [hR, accessesUnderLock]
  · simp [hR, accessesUnderLock]
  · simp [hR, accessesUnderLock]
  · by_cases hsb : Trim scriptBefore = "" <;> cases hb : w.scriptBeforeStarts <;>
      simp [hR, accessesUnderLock, World.before, runScript, hsb, hb]
  · by_cases hsb : Trim scriptBefore = "" <;> by_cases hsa : Trim scriptAfter = "" <;>
    cases hb : w.scriptBeforeStarts <;> cases ha : w.scriptAfterStarts <;>
      simp [hR, accessesUnderLock, World.before, World.after, runScript, hsb, hsa, hb, ha]

/-- Every registry access of `StopInstance` is made under the lock. -/
theorem StopInstance_under_lock (kill : Process → Bool) (instances : List Instance)
    (pid : Int) : accessesUnderLock false (StopInstance kill instances pid).effects = true := by
  by_cases h : ∃ i ∈ instances, i.PID = pid
  · obtain ⟨inst, -, hloop⟩ := stopLoop_of_present kill pid instances h
    cases hk : kill inst.Cmd.Process <;>
      simp [StopInstance, hloop, stopProcess, hk, accessesUnderLock]
  · have habsent : ∀ i ∈ instances, i.PID ≠ pid := fun i hi hp => h ⟨i, hi, hp⟩
    simp [StopInstance, stopLoop_of_absent kill pid instances habsent, accessesUnderLock]

/-- Every registry access of `observeProcess` is made under the lock. -/
theorem observeProcess_under_lock (waited : WaitResult) (closes : File → Bool)
    (instances : List Instance) (cmd : Cmd) :
    accessesUnderLock false (observeProcess waited closes instances cmd).effects = true := by
  by_cases h : ∃ i ∈ instances, i.PID = cmd.Process.Pid
  · obtain ⟨front, inst, back, hsplit, hfront, hinst⟩ :=
      exists_first_of_present cmd.Process.Pid instances h
    subst hsplit
    by_cases hw : waited = WaitResult.exited <;> cases hc : closes inst.File <;>
      simp [observeProcess, removeLoop_of_first closes _ front inst back hfront hinst, hw, hc,
        accessesUnderLock]
  · have habsent : ∀ i ∈ instances, i.PID ≠ cmd.Process.Pid := fun i hi hp => h ⟨i, hi, hp⟩
    by_cases hw : waited = WaitResult.exited <;>
      simp [observeProcess, removeLoop_of_absent closes _ instances habsent, hw,
        accessesUnderLock]

/-- C10: `GetAllInstances` reads the registry without holding the registry
lock: its only action is the read of `instances`, with no `m.Lock()` before
it, whereas every read and write of the registry in `StartInstance`,
`StopInstance` and `observeProcess` happens between `m.Lock()` and
`m.Unlock()`. -/
theorem GetAllInstances_reads_without_lock (instances : List Instance) :
    (GetAllInstances instances).effects = [Effect.readInstances] ∧
    accessesUnderLock false (GetAllInstances instances).effects = false ∧
    (∀ w instanceName configuration scriptBefore scriptAfter,
      accessesUnderLock false (StartInstance w instances instanceName configuration scriptBefore
          scriptAfter).effects = true) ∧
    (∀ kill pid, accessesUnderLock false (StopInstance kill instances pid).effects = true) ∧
    (∀ waited closes cmd,
      accessesUnderLock false (observeProcess waited closes instances cmd).effects = true) :=
  ⟨rfl, rfl,
   fun w instanceName configuration scriptBefore scriptAfter =>
     StartInstance_under_lock w instances instanceName configuration scriptBefore scriptAfter,
   fun kill pid => StopInstance_under_lock kill instances pid,
   fun waited closes cmd => observeProcess_under_lock waited closes instances cmd⟩

end Acweb
